import Mathlib

/-!
Upload-and-store pipeline: object store and locator codec.

Shallow embedding of `storage/client.go` (the in-memory S3-style client), of
`hasher/hasher.go` and of `fileupload/handler.go` (the locator codec and the upload
handler), followed by theorems about them.

Modelling conventions
* A Go `string` is a Lean `String` (a sequence of symbols). The string operations the
  code uses (`==`, `+`, `strings.HasPrefix`, `strings.TrimPrefix`, `strings.SplitN`)
  work symbol by symbol and are defined below on `String.data`.
* A Go `[]byte` is a `List Byte`; `len` is `List.length`, and `int64(len(x))` is the
  same number as an `Int` (a length always fits in 63 bits).
* A Go `map[string][]byte` is an association list with pairwise distinct keys
  (`AList`); the order of the list stands for the (unspecified) iteration order.
* A method with a pointer receiver that mutates the client takes the client and
  returns the result together with the client afterwards.
* `time.Now()` is an extra argument `now`. The `context.Context` argument, which the
  client never reads, is left out.
* Library code is modelled by its documented behaviour: SHA-256 after FIPS 180-4 on
  32-bit words (`Nat` reduced modulo `2^32`), a `hash.Hash` by the bytes written to it,
  an `http.Request` by the results of the calls the handler makes on it, a
  `multipart.File` by its content and read offset.
* The handler returns what it writes to the `http.ResponseWriter`, and the list of the
  calls it makes on its uploader.
-/

namespace Go

/-- One byte of payload. -/
abbrev Byte := Fin 256

/-- A `time.Time`, as a count of ticks; `0` is the zero value. -/
abbrev Time := Nat

/-- Go `error` values: a package-level sentinel variable (identified by its qualified
name), an error made on the spot by `errors.New`, and an error made by `fmt.Errorf`
from a message and a wrapped cause (`%w`). -/
inductive Error where
  | sentinel (name : String) : Error
  | new (msg : String) : Error
  | wrap (msg : String) (cause : Error) : Error
  deriving DecidableEq, Repr

/-- The `strings.HasPrefix` function: `s` begins with `pfx`. -/
def HasPrefix (s pfx : String) : Bool :=
  pfx.data.isPrefixOf s.data

/-- The `strings.TrimPrefix` function: `s` without the leading `pfx`, once, when `s`
begins with it; `s` itself otherwise. -/
def TrimPrefix (s pfx : String) : String :=
  if HasPrefix s pfx then String.mk (s.data.drop pfx.data.length) else s

/-- The `strings.Index` function on symbol lists: the position of the first occurrence
of `sep` in `s`, `none` where Go returns `-1`. -/
def Index : List Char → List Char → Option Nat
  | [], sep => if sep = [] then some 0 else none
  | c :: t, sep => if sep.isPrefixOf (c :: t) then some 0 else (Index t sep).map Nat.succ

/-- The loop of `strings.genSplit`: cut at the first occurrence of `sep` at most `k`
times, the rest of the string being the last piece. -/
def genSplitLoop (sep : List Char) : Nat → List Char → List (List Char)
  | 0, s => [s]
  | k + 1, s =>
    match Index s sep with
    | none => [s]
    | some m => s.take m :: genSplitLoop sep k (s.drop (m + sep.length))

/-- The `strings.explode` helper, used for an empty separator: at most `n` pieces, one
symbol each but for the last. -/
def explode (s : List Char) (n : Nat) : List (List Char) :=
  if min n s.length = 0 then []
  else (s.take (min n s.length - 1)).map (fun ch => [ch]) ++ [s.drop (min n s.length - 1)]

/-- The `strings.SplitN` function for a count `n ≥ 0` (the code only passes `2`): no
piece for `n = 0`, otherwise at most `n` pieces, the last one being the unsplit rest. -/
def SplitN (s sep : String) (n : Nat) : List String :=
  if n = 0 then []
  else if sep = "" then (explode s.data n).map String.mk
  else (genSplitLoop sep.data (min n (s.data.length + 1) - 1) s.data).map String.mk

deriving instance DecidableEq for Except

/-- An `io.Reader`: the chunks that successive `Read` calls deliver, after which the
stream ends with `io.EOF` (`err = none`) or fails with an error. -/
structure Reader where
  chunks : List (List Byte)
  err : Option Error
  deriving DecidableEq, Repr

/-- The `io.ReadAll` function: everything read up to the end of the stream or the first
error, and that error (`none` for a clean end). -/
def ReadAll (r : Reader) : List Byte × Option Error :=
  (r.chunks.flatten, r.err)

/-- The `strings.NewReader(string(data))` stream: it delivers `data` and ends. -/
def NewReader (data : List Byte) : Reader :=
  { chunks := [data], err := none }

/-- The first sixty-four prime numbers. -/
def firstPrimes : List Nat :=
  [2, 3, 5, 7, 11, 13, 17, 19, 23, 29, 31, 37, 41, 43, 47, 53, 59, 61, 67, 71, 73, 79, 83,
   89, 97, 101, 103, 107, 109, 113, 127, 131, 137, 139, 149, 151, 157, 163, 167, 173, 179,
   181, 191, 193, 197, 199, 211, 223, 227, 229, 233, 239, 241, 251, 257, 263, 269, 271,
   277, 281, 283, 293, 307, 311]

/-- The integer cube root of `n` by bisection on the bits below `2 ^ bits`: the largest
`r` with `r ^ 3 ≤ n`, starting from `r`. -/
def cubeRootLoop (n : Nat) : Nat → Nat → Nat
  | 0, r => r
  | bits + 1, r =>
    if (r + 2 ^ bits) ^ 3 ≤ n then cubeRootLoop n bits (r + 2 ^ bits)
    else cubeRootLoop n bits r

/-- The round constants of SHA-256 (FIPS 180-4, section 4.2.2): the first thirty-two bits
of the fractional parts of the cube roots of the first sixty-four primes; the table `_K`
of `crypto/sha256`, from `0x428a2f98` to `0xc67178f2`. -/
def sha256K : List Nat :=
  firstPrimes.map (fun p => cubeRootLoop (p * 2 ^ 96) 36 0 % 4294967296)

/-- Rotation of a 32-bit word to the right. -/
def rotr (n x : Nat) : Nat :=
  ((x >>> n) ||| (x <<< (32 - n))) % 4294967296

/-- The eight working words of SHA-256. -/
structure Sha256State where
  a : Nat
  b : Nat
  c : Nat
  d : Nat
  e : Nat
  f : Nat
  g : Nat
  h : Nat

/-- The initial hash value (FIPS 180-4, section 5.3.3). -/
def sha256Init : Sha256State :=
  { a := 0x6a09e667, b := 0xbb67ae85, c := 0x3c6ef372, d := 0xa54ff53a,
    e := 0x510e527f, f := 0x9b05688c, g := 0x1f83d9ab, h := 0x5be0cd19 }

/-- One round of the compression function, with round constant `k` and schedule word `w`. -/
def sha256Round (s : Sha256State) (k w : Nat) : Sha256State :=
  let t1 := (s.h + (rotr 6 s.e ^^^ rotr 11 s.e ^^^ rotr 25 s.e) +
    ((s.e &&& s.f) ^^^ ((s.e ^^^ 4294967295) &&& s.g)) + k + w) % 4294967296
  let t2 := ((rotr 2 s.a ^^^ rotr 13 s.a ^^^ rotr 22 s.a) +
    ((s.a &&& s.b) ^^^ (s.a &&& s.c) ^^^ (s.b &&& s.c))) % 4294967296
  { a := (t1 + t2) % 4294967296, b := s.a, c := s.b, d := s.c,
    e := (s.d + t1) % 4294967296, f := s.e, g := s.f, h := s.g }

/-- The message schedule, newest word first: `n` more words after the ones in `ws`. -/
def sha256Schedule : Nat → List Nat → List Nat
  | 0, ws => ws
  | n + 1, ws =>
    let w2 := ws.getD 1 0
    let w7 := ws.getD 6 0
    let w15 := ws.getD 14 0
    let w16 := ws.getD 15 0
    sha256Schedule n
      (((rotr 17 w2 ^^^ rotr 19 w2 ^^^ (w2 >>> 10)) + w7 +
        (rotr 7 w15 ^^^ rotr 18 w15 ^^^ (w15 >>> 3)) + w16) % 4294967296 :: ws)

/-- The big-endian 32-bit words of a list of bytes (four bytes a word). -/
def beWords : List Nat → List Nat
  | b0 :: b1 :: b2 :: b3 :: rest => (b0 * 16777216 + b1 * 65536 + b2 * 256 + b3) :: beWords rest
  | _ => []

/-- The compression of one 64-byte block into the state. -/
def sha256Block (s : Sha256State) (block : List Nat) : Sha256State :=
  let ws := (sha256Schedule 48 (beWords block).reverse).reverse
  let t := (sha256K.zip ws).foldl (fun st kw => sha256Round st kw.1 kw.2) s
  { a := (s.a + t.a) % 4294967296, b := (s.b + t.b) % 4294967296,
    c := (s.c + t.c) % 4294967296, d := (s.d + t.d) % 4294967296,
    e := (s.e + t.e) % 4294967296, f := (s.f + t.f) % 4294967296,
    g := (s.g + t.g) % 4294967296, h := (s.h + t.h) % 4294967296 }

/-- The padded message: the bytes, `0x80`, zeros up to 56 modulo 64, and the length in bits
as a big-endian 64-bit number. -/
def sha256Pad (msg : List Nat) : List Nat :=
  msg ++ [128] ++ List.replicate ((119 - msg.length % 64) % 64) 0 ++
    (List.range 8).map (fun i => (msg.length * 8) / 256 ^ (7 - i) % 256)

/-- The state after the first `n` blocks of 64 bytes of `bytes`. -/
def sha256Blocks : Nat → Sha256State → List Nat → Sha256State
  | 0, s, _ => s
  | n + 1, s, bytes => sha256Blocks n (sha256Block s (bytes.take 64)) (bytes.drop 64)

/-- The four bytes of a 32-bit word, most significant first. -/
def wordBytes (w : Nat) : List Byte :=
  [Fin.ofNat (w / 16777216), Fin.ofNat (w / 65536), Fin.ofNat (w / 256), Fin.ofNat w]

/-- The `sha256.Sum256` function: the 32-byte SHA-256 digest of `data`. -/
def Sum256 (data : List Byte) : List Byte :=
  let padded := sha256Pad (data.map Fin.val)
  let s := sha256Blocks (padded.length / 64) sha256Init padded
  wordBytes s.a ++ wordBytes s.b ++ wordBytes s.c ++ wordBytes s.d ++
    wordBytes s.e ++ wordBytes s.f ++ wordBytes s.g ++ wordBytes s.h

/-- The digit of `hex.EncodeToString` for a value below sixteen. -/
def hexDigit (n : Nat) : Char :=
  "0123456789abcdef".data.getD n '0'

/-- The `hex.EncodeToString` function: two lower-case hexadecimal digits a byte. -/
def EncodeToString (src : List Byte) : String :=
  String.mk (src.flatMap (fun b => [hexDigit (b.val / 16), hexDigit (b.val % 16)]))

/-- A `hash.Hash` made by `sha256.New()`, by its contract: the bytes written to it so
far (`Sum` is the digest of all of them). -/
structure Hash where
  written : List Byte
  deriving DecidableEq, Repr

/-- The `sha256.New` function: nothing written yet. -/
def sha256New : Hash :=
  { written := [] }

/-- The method `Write` of a `hash.Hash`; it never fails. -/
def Hash.Write (h : Hash) (p : List Byte) : Hash :=
  { written := h.written ++ p }

/-- The method `Sum` of a `hash.Hash`: the digest of everything written, appended to `b`. -/
def Hash.Sum (h : Hash) (b : List Byte) : List Byte :=
  b ++ Sum256 h.written

/-- The `io.Copy` function into a hash: each chunk the reader delivers is written to `dst`;
the result is the hash afterwards, the number of bytes copied and the error that ended the
stream (`none` for a clean end). -/
def Copy (dst : Hash) (src : Reader) : Hash × Int × Option Error :=
  (src.chunks.foldl Hash.Write dst, (((src.chunks.map List.length).sum : Nat) : Int), src.err)

/-- The `errors.Is` function: `err` or an error it wraps is `target`. -/
def Error.Is : Error → Error → Bool
  | Error.wrap msg cause, target =>
    decide (Error.wrap msg cause = target) || Error.Is cause target
  | err, target => decide (err = target)

/-- The `strings.ToLower` function on the letters `A` to `Z` (the strings compared with its
result here are ASCII). -/
def ToLower (s : String) : String :=
  String.mk (s.data.map Char.toLower)

/-- The loop of `filepath.Ext`, from the last symbol backwards: stop at a path separator,
return the suffix from the first dot met. -/
def extLoop : List Char → List Char → List Char
  | [], _ => []
  | ch :: rest, acc =>
    if ch = '/' then [] else if ch = '.' then '.' :: acc else extLoop rest (ch :: acc)

/-- The `filepath.Ext` function (with `/` as the path separator): the suffix of the last
path element from its last dot, empty when it has no dot. -/
def Ext (path : String) : String :=
  String.mk (extLoop path.data.reverse [])

/-- The `http.StatusText` function: the reason phrase of a status code, the empty string
for a code without one. -/
def StatusText (code : Nat) : String :=
  if code = 100 then "Continue"
  else if code = 101 then "Switching Protocols"
  else if code = 102 then "Processing"
  else if code = 103 then "Early Hints"
  else if code = 200 then "OK"
  else if code = 201 then "Created"
  else if code = 202 then "Accepted"
  else if code = 203 then "Non-Authoritative Information"
  else if code = 204 then "No Content"
  else if code = 205 then "Reset Content"
  else if code = 206 then "Partial Content"
  else if code = 207 then "Multi-Status"
  else if code = 208 then "Already Reported"
  else if code = 226 then "IM Used"
  else if code = 300 then "Multiple Choices"
  else if code = 301 then "Moved Permanently"
  else if code = 302 then "Found"
  else if code = 303 then "See Other"
  else if code = 304 then "Not Modified"
  else if code = 305 then "Use Proxy"
  else if code = 307 then "Temporary Redirect"
  else if code = 308 then "Permanent Redirect"
  else if code = 400 then "Bad Request"
  else if code = 401 then "Unauthorized"
  else if code = 402 then "Payment Required"
  else if code = 403 then "Forbidden"
  else if code = 404 then "Not Found"
  else if code = 405 then "Method Not Allowed"
  else if code = 406 then "Not Acceptable"
  else if code = 407 then "Proxy Authentication Required"
  else if code = 408 then "Request Timeout"
  else if code = 409 then "Conflict"
  else if code = 410 then "Gone"
  else if code = 411 then "Length Required"
  else if code = 412 then "Precondition Failed"
  else if code = 413 then "Request Entity Too Large"
  else if code = 414 then "Request URI Too Long"
  else if code = 415 then "Unsupported Media Type"
  else if code = 416 then "Requested Range Not Satisfiable"
  else if code = 417 then "Expectation Failed"
  else if code = 418 then "I\x27m a teapot"
  else if code = 421 then "Misdirected Request"
  else if code = 422 then "Unprocessable Entity"
  else if code = 423 then "Locked"
  else if code = 424 then "Failed Dependency"
  else if code = 425 then "Too Early"
  else if code = 426 then "Upgrade Required"
  else if code = 428 then "Precondition Required"
  else if code = 429 then "Too Many Requests"
  else if code = 431 then "Request Header Fields Too Large"
  else if code = 451 then "Unavailable For Legal Reasons"
  else if code = 500 then "Internal Server Error"
  else if code = 501 then "Not Implemented"
  else if code = 502 then "Bad Gateway"
  else if code = 503 then "Service Unavailable"
  else if code = 504 then "Gateway Timeout"
  else if code = 505 then "HTTP Version Not Supported"
  else if code = 506 then "Variant Also Negotiates"
  else if code = 507 then "Insufficient Storage"
  else if code = 508 then "Loop Detected"
  else if code = 510 then "Not Extended"
  else if code = 511 then "Network Authentication Required"
  else ""

/-- The conversion `[]byte(s)` of a string: the bytes of its UTF-8 encoding. -/
def bytesOf (s : String) : List Byte :=
  s.data.flatMap (fun ch => (String.utf8EncodeChar ch).map (fun b => Fin.ofNat b.toNat))

/-- The sentinel `io.EOF`. -/
def EOF : Error := Error.sentinel "io.EOF"

/-- A `multipart.File` (a section of memory or a file on disk): its content and the offset
of the next read; `readErr` and `seekErr` are the failures of the medium, if any, that
`Read` and `Seek` report. -/
structure File where
  content : List Byte
  offset : Nat
  readErr : Option Error
  seekErr : Option Error
  deriving DecidableEq, Repr

/-- The method `Read` of a file with the buffer `p`: the buffer afterwards, the number of
bytes read, the error and the file afterwards. At the end of the content a read into a
non-empty buffer gives `io.EOF`; otherwise as many bytes as the buffer holds and the content
has left are copied to the front of the buffer and the offset moves on. -/
def File.Read (f : File) (p : List Byte) : List Byte × Int × Option Error × File :=
  match f.readErr with
  | some err => (p, 0, some err, f)
  | none =>
    if p.length = 0 then (p, 0, none, f)
    else if f.content.length ≤ f.offset then (p, 0, some EOF, f)
    else
      let chunk := (f.content.drop f.offset).take p.length
      (chunk ++ p.drop chunk.length, (chunk.length : Int), none,
       { f with offset := f.offset + chunk.length })

/-- The method `Seek` of a file: the new offset counted from the start (`whence = 0`), the
current offset (`1`) or the end (`2`); an invalid `whence` or a negative position is an
error and leaves the file as it is. -/
def File.Seek (f : File) (offset : Int) (whence : Nat) : Int × Option Error × File :=
  match f.seekErr with
  | some err => (0, some err, f)
  | none =>
    if 2 < whence then (0, some (Error.new "Seek: invalid whence"), f)
    else
      let base : Int :=
        if whence = 0 then 0 else if whence = 1 then (f.offset : Int)
        else (f.content.length : Int)
      if base + offset < 0 then (0, some (Error.new "Seek: invalid offset"), f)
      else (base + offset, none, { f with offset := (base + offset).toNat })

/-- The `io.ReadAll` function on a file: everything from the offset to the end. -/
def File.ReadAll (f : File) : List Byte × Option Error :=
  (f.content.drop f.offset, f.readErr)

end Go

namespace Storage

open Go

/-- The sentinel `ErrBucketNotFound`. -/
def ErrBucketNotFound : Error := Error.sentinel "storage.ErrBucketNotFound"

/-- The sentinel `ErrObjectNotFound`. -/
def ErrObjectNotFound : Error := Error.sentinel "storage.ErrObjectNotFound"

/-- The sentinel `ErrInvalidConfig`. -/
def ErrInvalidConfig : Error := Error.sentinel "storage.ErrInvalidConfig"

/-- The struct `Config`. -/
structure Config where
  Endpoint : String
  Region : String
  AccessKey : String
  SecretKey : String
  Bucket : String
  deriving DecidableEq, Repr

/-- The map `objects` of a client. -/
abbrev Objects := AList (fun _ : String => List Byte)

/-- The struct `Client`. -/
structure Client where
  config : Config
  timeout : Nat
  objects : Objects

/-- The function `ConfigFromEnv`; `getenv` is `os.Getenv`, which gives the empty
string for a variable that is not set. -/
def ConfigFromEnv (getenv : String → String) : Except Error Config :=
  let cfg : Config :=
    { Endpoint := getenv "S3_ENDPOINT", Region := getenv "S3_REGION",
      AccessKey := getenv "S3_ACCESS_KEY", SecretKey := getenv "S3_SECRET_KEY",
      Bucket := getenv "S3_BUCKET" }
  if cfg.Endpoint = "" then
    Except.error (Error.wrap "S3_ENDPOINT is required" ErrInvalidConfig)
  else if cfg.AccessKey = "" ∨ cfg.SecretKey = "" then
    Except.error (Error.wrap "S3_ACCESS_KEY and S3_SECRET_KEY are required" ErrInvalidConfig)
  else if cfg.Bucket = "" then
    Except.error (Error.wrap "S3_BUCKET is required" ErrInvalidConfig)
  else if cfg.Region = "" then
    Except.ok { cfg with Region := "us-east-1" }
  else
    Except.ok cfg

/-- The function `NewClient`; `cfg = none` is a nil pointer. The timeout is
`30 * time.Second` in nanoseconds. -/
def NewClient (cfg : Option Config) : Except Error Client :=
  match cfg with
  | none => Except.error (Error.wrap "config cannot be nil" ErrInvalidConfig)
  | some cfg =>
    if cfg.Endpoint = "" then
      Except.error (Error.wrap "endpoint is required" ErrInvalidConfig)
    else if cfg.Bucket = "" then
      Except.error (Error.wrap "bucket is required" ErrInvalidConfig)
    else
      Except.ok { config := cfg, timeout := 30 * 1000000000, objects := ∅ }

/-- The struct `ObjectMeta`. -/
structure ObjectMeta where
  Key : String
  Size : Int
  ContentType : String
  LastModified : Time
  ETag : String
  deriving DecidableEq, Repr

/-- The format `"\"%x\""` applied to a length: lower-case hexadecimal between double
quotes. -/
def etagOf (n : Nat) : String :=
  String.mk ([Char.ofNat 34] ++ Nat.toDigits 16 n ++ [Char.ofNat 34])

/-- The method `Client.PutObject`; `data = none` is a nil reader. -/
def PutObject (c : Client) (key : String) (data : Option Reader) (contentType : String)
    (now : Time) : Except Error ObjectMeta × Client :=
  if key = "" then
    (Except.error (Error.new "key cannot be empty"), c)
  else
    match data with
    | none => (Except.error (Error.new "data cannot be nil"), c)
    | some r =>
      let key := TrimPrefix key "/"
      match ReadAll r with
      | (_, some err) => (Except.error (Error.wrap "failed to read data" err), c)
      | (content, none) =>
        (Except.ok
          { Key := key, Size := (content.length : Int), ContentType := contentType,
            LastModified := now, ETag := etagOf content.length },
         { c with objects := c.objects.insert key content })

/-- The method `Client.GetObject`. -/
def GetObject (c : Client) (key : String) (now : Time) :
    Except Error (Reader × ObjectMeta) × Client :=
  if key = "" then
    (Except.error (Error.new "key cannot be empty"), c)
  else
    let key := TrimPrefix key "/"
    match c.objects.lookup key with
    | none => (Except.error ErrObjectNotFound, c)
    | some data =>
      (Except.ok
        (NewReader data,
         { Key := key, Size := (data.length : Int), ContentType := "",
           LastModified := now, ETag := "" }), c)

/-- The method `Client.HeadObject`. -/
def HeadObject (c : Client) (key : String) (now : Time) : Except Error ObjectMeta × Client :=
  if key = "" then
    (Except.error (Error.new "key cannot be empty"), c)
  else
    let key := TrimPrefix key "/"
    match c.objects.lookup key with
    | none => (Except.error ErrObjectNotFound, c)
    | some data =>
      (Except.ok
        { Key := key, Size := (data.length : Int), ContentType := "",
          LastModified := now, ETag := "" }, c)

/-- The method `Client.DeleteObject`; `none` is a nil error. -/
def DeleteObject (c : Client) (key : String) : Option Error × Client :=
  if key = "" then
    (some (Error.new "key cannot be empty"), c)
  else
    let key := TrimPrefix key "/"
    match c.objects.lookup key with
    | none => (some ErrObjectNotFound, c)
    | some _ => (none, { c with objects := c.objects.erase key })

/-- The method `Client.ListObjects`: one pass over the map, appending an entry for each
key that passes the test. -/
def ListObjects (c : Client) (pfx : String) : Except Error (List ObjectMeta) × Client :=
  (Except.ok
    (c.objects.entries.foldl
      (fun result e =>
        if pfx = "" ∨ HasPrefix e.1 pfx = true then
          result ++ [{ Key := e.1, Size := (e.2.length : Int), ContentType := "",
                       LastModified := 0, ETag := "" }]
        else result)
      []), c)

/-- The configuration the tests of the client use:
`Config{Endpoint: "http://localhost:3900", Bucket: "test"}`. -/
def testConfig : Config :=
  { Endpoint := "http://localhost:3900", Region := "", AccessKey := "", SecretKey := "",
    Bucket := "test" }

/-- The client `NewClient(testConfig)` returns: no object stored. -/
def testClient : Client :=
  { config := testConfig, timeout := 30 * 1000000000, objects := ∅ }

/-- The environment of the test `valid env vars` of `TestConfigFromEnv`. -/
def testEnv (name : String) : String :=
  if name = "S3_ENDPOINT" then "http://localhost:3900"
  else if name = "S3_REGION" then "eu-west-1"
  else if name = "S3_ACCESS_KEY" then "mykey"
  else if name = "S3_SECRET_KEY" then "mysecret"
  else if name = "S3_BUCKET" then "mybucket"
  else ""

/-- The environment `testEnv` with the variable `unset` not set. -/
def testEnvWithout (unset : String) (name : String) : String :=
  if name = unset then "" else testEnv name

/-- The store of `TestClient_ListObjects`: `prefix/a.txt`, `prefix/b.txt` and `other.txt`
put into the empty store, with the contents `a`, `b` and `c`. -/
def listTestClient : Client :=
  (PutObject
    (PutObject
      (PutObject testClient "prefix/a.txt" (some (NewReader [97])) "text/plain" 0).2
      "prefix/b.txt" (some (NewReader [98])) "text/plain" 0).2
    "other.txt" (some (NewReader [99])) "text/plain" 0).2

end Storage

namespace Hasher

open Go

/-- The sentinel `ErrNilReader`. -/
def ErrNilReader : Error := Error.sentinel "hasher.ErrNilReader"

/-- The sentinel `ErrEmptyContent`. -/
def ErrEmptyContent : Error := Error.sentinel "hasher.ErrEmptyContent"

/-- The struct `Result`. -/
structure Result where
  Hash : String
  Size : Int
  Algorithm : String
  deriving DecidableEq, Repr

/-- The function `SHA256FromReader`; `r = none` is a nil reader. -/
def SHA256FromReader (r : Option Reader) : Except Error Result :=
  match r with
  | none => Except.error ErrNilReader
  | some r =>
    match Copy sha256New r with
    | (_, _, some err) => Except.error (Error.wrap "failed to read content" err)
    | (hash, n, none) =>
      if n = 0 then Except.error ErrEmptyContent
      else Except.ok { Hash := EncodeToString (hash.Sum []), Size := n, Algorithm := "sha256" }

/-- The function `SHA256FromBytes`. -/
def SHA256FromBytes (data : List Byte) : Except Error Result :=
  if data.length = 0 then Except.error ErrEmptyContent
  else
    Except.ok
      { Hash := EncodeToString (Sum256 data), Size := (data.length : Int),
        Algorithm := "sha256" }

/-- The function `SHA256FromString`. -/
def SHA256FromString (s : String) : Except Error Result :=
  SHA256FromBytes (bytesOf s)

/-- The function `Verify`: the boolean and the error (`none` for nil). -/
def Verify (reader : Option Reader) (expectedHash : String) : Bool × Option Error :=
  match SHA256FromReader reader with
  | Except.error err => (false, some err)
  | Except.ok result => (decide (result.Hash = expectedHash), none)

/-- The bytes of `hello world`, the content of the hasher tests. -/
def helloWorld : List Byte :=
  [104, 101, 108, 108, 111, 32, 119, 111, 114, 108, 100]

end Hasher

namespace Fileupload

open Go

/-- The function `GenerateURI`: the format `"s3://garage/%s/%s"`. -/
def GenerateURI (bucket key : String) : String :=
  "s3://garage/" ++ bucket ++ "/" ++ key

/-- The function `ParseURI`; the third component is the error, `none` for nil. -/
def ParseURI (uri : String) : String × String × Option Error :=
  if !HasPrefix uri "s3://garage/" then
    ("", "", some (Error.new "invalid URI format"))
  else
    let path := TrimPrefix uri "s3://garage/"
    match SplitN path "/" 2 with
    | [bucket, key] => (bucket, key, none)
    | _ => ("", "", some (Error.new "invalid URI format: missing key"))

/-- The sentinel `ErrInvalidMIME`. -/
def ErrInvalidMIME : Error := Error.sentinel "fileupload.ErrInvalidMIME"

/-- The sentinel `ErrFileTooLarge`. -/
def ErrFileTooLarge : Error := Error.sentinel "fileupload.ErrFileTooLarge"

/-- The sentinel `ErrMissingFile`. -/
def ErrMissingFile : Error := Error.sentinel "fileupload.ErrMissingFile"

/-- The constant `MaxFileSize`. -/
def MaxFileSize : Int := 10 * 1024 * 1024

/-- The variable `AllowedMIMETypes`. -/
def AllowedMIMETypes : List String := ["application/pdf"]

/-- The struct `UploadResponse`. -/
structure UploadResponse where
  URI : String
  SHA256 : String
  FileName : String
  Size : Int
  UploadedAt : Time
  deriving DecidableEq, Repr

/-- The struct `ErrorResponse`. -/
structure ErrorResponse where
  Error : String
  Code : String
  Message : String
  deriving DecidableEq, Repr

/-- A `multipart.FileHeader`, by what the handler reads of it: the file name, the
`Content-Type` entry of its MIME header and its `Size` field. The multipart parser of Go
sets `Size` to the number of bytes it read for the part; the structure does not force
that, and a theorem that needs it says so. -/
structure FileHeader where
  Filename : String
  ContentType : String
  Size : Int
  deriving DecidableEq, Repr

/-- One call of `Uploader.Upload`: the file name, the stream and the content type. -/
structure UploadCall where
  filename : String
  data : Reader
  contentType : String
  deriving DecidableEq, Repr

/-- The interface `Uploader`: what `Upload` returns, `(uri, sha256, err)`. -/
structure Uploader where
  Upload : String → Reader → String → String × String × Option Error

/-- The struct `Handler`. -/
structure Handler where
  maxSize : Int
  allowedMIME : List String
  uploader : Uploader

/-- The function `NewHandler`. -/
def NewHandler (uploader : Uploader) : Handler :=
  { maxSize := MaxFileSize, allowedMIME := AllowedMIMETypes, uploader := uploader }

/-- An `http.Request`, by what the handler asks of it: the method, the error of
`ParseMultipartForm` (`none` for nil) and the result of `FormFile("file")`. The parse can
fail on a request that holds a file part (a form whose query string is malformed is
parsed, and the error returned all the same). -/
structure Request where
  Method : String
  parseErr : Option Error
  formFile : Except Error (Reader × FileHeader)

/-- The body the handler encodes as JSON. -/
inductive Body where
  | error (e : ErrorResponse) : Body
  | upload (u : UploadResponse) : Body
  deriving DecidableEq, Repr

/-- What the handler writes to the `http.ResponseWriter`: the `Content-Type` header, the
status code and the body. -/
structure Response where
  contentType : String
  status : Nat
  body : Body
  deriving DecidableEq, Repr

/-- The method `Handler.isValidMIME`. -/
def Handler.isValidMIME (h : Handler) (header : FileHeader) : Bool :=
  let contentType := header.ContentType
  if h.allowedMIME.any (fun allowed => HasPrefix contentType allowed) then true
  else decide (ToLower (Ext header.Filename) = ".pdf")

/-- The method `Handler.writeError`. -/
def Handler.writeError (_h : Handler) (status : Nat) (code message : String) : Response :=
  { contentType := "application/json", status := status,
    body := Body.error { Error := StatusText status, Code := code, Message := message } }

/-- The method `Handler.ServeHTTP`: the response written and the calls made on the
uploader, in order. -/
def Handler.ServeHTTP (h : Handler) (r : Request) (now : Time) : Response × List UploadCall :=
  if r.Method ≠ "POST" then
    (h.writeError 405 "METHOD_NOT_ALLOWED" "Only POST method is allowed", [])
  else
    match r.parseErr with
    | some _ => (h.writeError 400 "PARSE_ERROR" "Failed to parse form", [])
    | none =>
      match r.formFile with
      | Except.error _ => (h.writeError 400 "MISSING_FILE" "No file provided", [])
      | Except.ok (file, header) =>
        if header.Size > h.maxSize then
          (h.writeError 413 "FILE_TOO_LARGE" "File exceeds maximum size", [])
        else if !h.isValidMIME header then
          (h.writeError 415 "INVALID_MIME" "Only PDF files are allowed", [])
        else
          match h.uploader.Upload header.Filename file header.ContentType with
          | (_, _, some _) =>
            (h.writeError 500 "UPLOAD_ERROR" "Failed to upload file",
             [{ filename := header.Filename, data := file, contentType := header.ContentType }])
          | (uri, sha256, none) =>
            ({ contentType := "application/json", status := 201,
               body := Body.upload
                 { URI := uri, SHA256 := sha256, FileName := header.Filename,
                   Size := header.Size, UploadedAt := now } },
             [{ filename := header.Filename, data := file, contentType := header.ContentType }])

/-- The function `ValidatePDF`: the error (`none` for nil) and the file afterwards. The
comparison `string(header) != "%PDF-"` is on the five bytes of the buffer. -/
def ValidatePDF (file : File) : Option Error × File :=
  let header : List Byte := List.replicate 5 0
  match file.Read header with
  | (_, _, some err, file) => (some (Error.wrap "failed to read file header" err), file)
  | (header, _, none, file) =>
    match file.Seek 0 0 with
    | (_, some err, file) => (some (Error.wrap "failed to seek file" err), file)
    | (_, none, file) =>
      if header ≠ bytesOf "%PDF-" then (some ErrInvalidMIME, file)
      else (none, file)

/-- An uploader that stores nothing and answers with a fixed locator and digest. -/
def stubUploader : Uploader :=
  { Upload := fun filename _ _ => (GenerateURI "uploads" filename, "00", none) }

/-- An uploader whose store fails. -/
def failingUploader : Uploader :=
  { Upload := fun _ _ _ => ("", "", some (Error.new "store unavailable")) }

end Fileupload

/-! ## Facts about the string helpers -/

namespace Go

theorem hasPrefix_iff (s pfx : String) :
    HasPrefix s pfx = true ↔ ∃ rest : String, s = pfx ++ rest := by
  unfold HasPrefix
  rw [List.isPrefixOf_iff_prefix]
  constructor
  · rintro ⟨t, ht⟩
    exact ⟨String.mk t, String.ext (by simp [ht])⟩
  · rintro ⟨rest, rfl⟩
    exact ⟨rest.data, by simp⟩

theorem hasPrefix_append (pfx rest : String) : HasPrefix (pfx ++ rest) pfx = true :=
  (hasPrefix_iff _ _).2 ⟨rest, rfl⟩

theorem hasPrefix_eq_false (s pfx : String) (h : ∀ rest : String, s ≠ pfx ++ rest) :
    HasPrefix s pfx = false := by
  cases hp : HasPrefix s pfx
  · rfl
  · obtain ⟨rest, hr⟩ := (hasPrefix_iff s pfx).1 hp
    exact absurd hr (h rest)

theorem trimPrefix_append (pfx rest : String) : TrimPrefix (pfx ++ rest) pfx = rest := by
  unfold TrimPrefix
  rw [if_pos (hasPrefix_append pfx rest)]
  exact String.ext (by simp)

theorem trimPrefix_of_not (s pfx : String) (h : ∀ rest : String, s ≠ pfx ++ rest) :
    TrimPrefix s pfx = s := by
  unfold TrimPrefix
  rw [hasPrefix_eq_false s pfx h]
  rfl

theorem append_ne_empty (pfx rest : String) (h : pfx ≠ "") : pfx ++ rest ≠ "" := by
  intro hc
  apply h
  have hd := congrArg String.data hc
  simp at hd
  exact String.ext (by simp [hd.1])

end Go

/-! ## The object store -/

namespace Storage

open Go

theorem readAll_newReader (d : List Byte) : ReadAll (NewReader d) = (d, none) := by
  simp [ReadAll, NewReader]

theorem putObject_ok (c : Client) (k : String) (r : Reader) (b : List Byte) (ct : String)
    (now : Time) (hk : k ≠ "") (hr : ReadAll r = (b, none)) :
    PutObject c k (some r) ct now =
      (Except.ok
        { Key := TrimPrefix k "/", Size := (b.length : Int), ContentType := ct,
          LastModified := now, ETag := etagOf b.length },
       { c with objects := c.objects.insert (TrimPrefix k "/") b }) := by
  simp [PutObject, hk, hr]

theorem putObject_ok_key_ne (c : Client) (k : String) (d : Option Reader) (ct : String)
    (now : Time) (m : ObjectMeta) (h : (PutObject c k d ct now).1 = Except.ok m) : k ≠ "" := by
  intro hk
  simp [PutObject, hk] at h

theorem getObject_found (c : Client) (k : String) (now : Time) (d : List Byte) (hk : k ≠ "")
    (h : c.objects.lookup (TrimPrefix k "/") = some d) :
    GetObject c k now =
      (Except.ok
        (NewReader d,
         { Key := TrimPrefix k "/", Size := (d.length : Int), ContentType := "",
           LastModified := now, ETag := "" }), c) := by
  simp [GetObject, hk, h]

theorem getObject_missing (c : Client) (k : String) (now : Time) (hk : k ≠ "")
    (h : c.objects.lookup (TrimPrefix k "/") = none) :
    GetObject c k now = (Except.error ErrObjectNotFound, c) := by
  simp [GetObject, hk, h]

theorem headObject_found (c : Client) (k : String) (now : Time) (d : List Byte) (hk : k ≠ "")
    (h : c.objects.lookup (TrimPrefix k "/") = some d) :
    HeadObject c k now =
      (Except.ok
        { Key := TrimPrefix k "/", Size := (d.length : Int), ContentType := "",
          LastModified := now, ETag := "" }, c) := by
  simp [HeadObject, hk, h]

theorem headObject_missing (c : Client) (k : String) (now : Time) (hk : k ≠ "")
    (h : c.objects.lookup (TrimPrefix k "/") = none) :
    HeadObject c k now = (Except.error ErrObjectNotFound, c) := by
  simp [HeadObject, hk, h]

theorem deleteObject_found (c : Client) (k : String) (d : List Byte) (hk : k ≠ "")
    (h : c.objects.lookup (TrimPrefix k "/") = some d) :
    DeleteObject c k = (none, { c with objects := c.objects.erase (TrimPrefix k "/") }) := by
  simp [DeleteObject, hk, h]

theorem deleteObject_missing (c : Client) (k : String) (hk : k ≠ "")
    (h : c.objects.lookup (TrimPrefix k "/") = none) :
    DeleteObject c k = (some ErrObjectNotFound, c) := by
  simp [DeleteObject, hk, h]

/-- When `DeleteObject` returns nil, the key is not empty, its normalized form was
stored, and the client afterwards is the old one without that entry. -/
theorem deleteObject_ok_inv (c : Client) (k : String) (h : (DeleteObject c k).1 = none) :
    k ≠ "" ∧ (DeleteObject c k).2 = { c with objects := c.objects.erase (TrimPrefix k "/") } := by
  by_cases hk : k = ""
  · simp [DeleteObject, hk] at h
  · refine ⟨hk, ?_⟩
    cases hl : c.objects.lookup (TrimPrefix k "/") with
    | none => simp [DeleteObject, hk, hl] at h
    | some d => rw [deleteObject_found c k d hk hl]

/-- C1 (as amended): when `PutObject(k, b)` returns metadata `m` whose key is not empty and
does not begin with a slash, `GetObject(m.Key)` on the resulting store succeeds and its
stream yields exactly `b`. -/
theorem put_get_round_trip (c : Client) (k : String) (r : Reader) (b : List Byte)
    (ct : String) (now now2 : Time) (m : ObjectMeta)
    (hb : b ≠ []) (hr : ReadAll r = (b, none))
    (hput : (PutObject c k (some r) ct now).1 = Except.ok m)
    (hne : m.Key ≠ "") (hsl : ∀ rest : String, m.Key ≠ "/" ++ rest) :
    ∃ stream meta,
      (GetObject (PutObject c k (some r) ct now).2 m.Key now2).1 = Except.ok (stream, meta) ∧
      ReadAll stream = (b, none) := by
  have _ := hb
  have hk : k ≠ "" := putObject_ok_key_ne c k (some r) ct now m hput
  rw [putObject_ok c k r b ct now hk hr] at hput ⊢
  simp only [Except.ok.injEq] at hput
  have hkey : m.Key = TrimPrefix k "/" := by rw [← hput]
  have htrim : TrimPrefix m.Key "/" = m.Key := trimPrefix_of_not _ _ hsl
  have hl : ({ c with objects := c.objects.insert (TrimPrefix k "/") b } : Client).objects.lookup
      (TrimPrefix m.Key "/") = some b := by
    rw [htrim, hkey]
    exact AList.lookup_insert _
  rw [getObject_found _ _ now2 b hne hl]
  exact ⟨_, _, rfl, readAll_newReader b⟩

/-- Witness for C1: the put of the client tests, `exists.txt` with content `content`. -/
theorem put_get_round_trip_witness :
    ∃ stream meta,
      (GetObject (PutObject testClient "exists.txt" (some (NewReader [99, 111])) "text/plain" 1).2
        "exists.txt" 2).1 = Except.ok (stream, meta) ∧
      ReadAll stream = ([99, 111], none) :=
  put_get_round_trip testClient "exists.txt" (NewReader [99, 111]) [99, 111] "text/plain" 1 2
    { Key := "exists.txt", Size := 2, ContentType := "text/plain", LastModified := 1,
      ETag := etagOf 2 }
    (by decide) (by decide) (by decide) (by decide)
    (by
      intro rest h
      have hd := congrArg String.data h
      simp at hd)

/-- C1 fails as stated: `PutObject` accepts the keys `/` and `//a`, returns metadata with
the keys `""` and `/a`, and `GetObject` of those returned keys fails. -/
theorem put_get_round_trip_counterexample :
    (PutObject testClient "/" (some (NewReader [1])) "text/plain" 0).1 =
        Except.ok { Key := "", Size := 1, ContentType := "text/plain", LastModified := 0,
                    ETag := etagOf 1 } ∧
      (GetObject (PutObject testClient "/" (some (NewReader [1])) "text/plain" 0).2 "" 0).1 =
        Except.error (Error.new "key cannot be empty") ∧
      (PutObject testClient "//a" (some (NewReader [1])) "text/plain" 0).1 =
        Except.ok { Key := "/a", Size := 1, ContentType := "text/plain", LastModified := 0,
                    ETag := etagOf 1 } ∧
      (GetObject (PutObject testClient "//a" (some (NewReader [1])) "text/plain" 0).2 "/a" 0).1 =
        Except.error ErrObjectNotFound := by
  decide

/-- C2: when `DeleteObject(k)` succeeds, then on the resulting store `GetObject(k)`,
`HeadObject(k)` and a second `DeleteObject(k)` all fail with `ErrObjectNotFound`. -/
theorem delete_then_not_found (c : Client) (k : String) (now : Time)
    (h : (DeleteObject c k).1 = none) :
    (GetObject (DeleteObject c k).2 k now).1 = Except.error ErrObjectNotFound ∧
      (HeadObject (DeleteObject c k).2 k now).1 = Except.error ErrObjectNotFound ∧
      (DeleteObject (DeleteObject c k).2 k).1 = some ErrObjectNotFound := by
  obtain ⟨hk, hc⟩ := deleteObject_ok_inv c k h
  have hl : ({ c with objects := c.objects.erase (TrimPrefix k "/") } : Client).objects.lookup
      (TrimPrefix k "/") = none := AList.lookup_erase _ _
  rw [hc, getObject_missing _ k now hk hl, headObject_missing _ k now hk hl,
    deleteObject_missing _ k hk hl]
  exact ⟨rfl, rfl, rfl⟩

/-- Witness for C2: the delete of the client tests, `del.txt` put and then deleted. -/
theorem delete_then_not_found_witness :
    (GetObject (DeleteObject (PutObject testClient "del.txt" (some (NewReader [100]))
        "text/plain" 0).2 "del.txt").2 "del.txt" 1).1 = Except.error ErrObjectNotFound ∧
      (HeadObject (DeleteObject (PutObject testClient "del.txt" (some (NewReader [100]))
        "text/plain" 0).2 "del.txt").2 "del.txt" 1).1 = Except.error ErrObjectNotFound ∧
      (DeleteObject (DeleteObject (PutObject testClient "del.txt" (some (NewReader [100]))
        "text/plain" 0).2 "del.txt").2 "del.txt").1 = some ErrObjectNotFound :=
  delete_then_not_found
    (PutObject testClient "del.txt" (some (NewReader [100])) "text/plain" 0).2 "del.txt" 1
    (by decide)

/-- C3 (as amended): for every key that is not empty and whose normalized form (one leading
slash removed) is not stored, `GetObject`, `HeadObject` and `DeleteObject` each fail with
`ErrObjectNotFound`. -/
theorem missing_key_not_found (c : Client) (k : String) (now : Time) (hk : k ≠ "")
    (h : TrimPrefix k "/" ∉ c.objects) :
    (GetObject c k now).1 = Except.error ErrObjectNotFound ∧
      (HeadObject c k now).1 = Except.error ErrObjectNotFound ∧
      (DeleteObject c k).1 = some ErrObjectNotFound := by
  have hl : c.objects.lookup (TrimPrefix k "/") = none := AList.lookup_eq_none.2 h
  rw [getObject_missing c k now hk hl, headObject_missing c k now hk hl,
    deleteObject_missing c k hk hl]
  exact ⟨rfl, rfl, rfl⟩

/-- Witness for C3: the missing keys of the client tests on the empty store. -/
theorem missing_key_not_found_witness :
    (GetObject testClient "notfound.txt" 0).1 = Except.error ErrObjectNotFound ∧
      (HeadObject testClient "notfound.txt" 0).1 = Except.error ErrObjectNotFound ∧
      (DeleteObject testClient "notfound.txt").1 = some ErrObjectNotFound :=
  missing_key_not_found testClient "notfound.txt" 0 (by decide)
    (by
      intro hmem
      exact absurd (AList.mem_keys.1 hmem) (by simp [testClient]))

/-- C3 fails as stated: the empty key is not stored in the empty store, yet the three
operations fail with the empty-key error, which is not `ErrObjectNotFound`; and the key
`/a` is not stored in a store that holds `a`, yet `GetObject` of `/a` succeeds. -/
theorem missing_key_not_found_counterexample :
    testClient.objects.lookup "" = none ∧
      (GetObject testClient "" 0).1 = Except.error (Error.new "key cannot be empty") ∧
      (HeadObject testClient "" 0).1 = Except.error (Error.new "key cannot be empty") ∧
      (DeleteObject testClient "").1 = some (Error.new "key cannot be empty") ∧
      Error.new "key cannot be empty" ≠ ErrObjectNotFound ∧
      (PutObject testClient "a" (some (NewReader [1])) "text/plain" 0).2.objects.lookup "/a"
        = none ∧
      (GetObject (PutObject testClient "a" (some (NewReader [1])) "text/plain" 0).2 "/a" 0).1 =
        Except.ok (NewReader [1],
          { Key := "a", Size := 1, ContentType := "", LastModified := 0, ETag := "" }) := by
  decide

/-- The entry `ListObjects` appends for one pair of the map. -/
theorem listObjects_fold (pfx : String) (l : List (Σ _ : String, List Byte))
    (acc : List ObjectMeta) :
    l.foldl
      (fun result e =>
        if pfx = "" ∨ HasPrefix e.1 pfx = true then
          result ++ [({ Key := e.1, Size := (e.2.length : Int), ContentType := "",
                        LastModified := 0, ETag := "" } : ObjectMeta)]
        else result) acc =
    acc ++ (l.filter (fun e => decide (pfx = "" ∨ HasPrefix e.1 pfx = true))).map
      (fun e => ({ Key := e.1, Size := (e.2.length : Int), ContentType := "",
                   LastModified := 0, ETag := "" } : ObjectMeta)) := by
  induction l generalizing acc with
  | nil => simp
  | cons e t ih =>
    rw [List.foldl_cons, ih]
    by_cases hp : pfx = "" ∨ HasPrefix e.1 pfx = true
    · simp [hp, List.filter_cons]
    · simp [hp, List.filter_cons]

theorem listObjects_eq (c : Client) (pfx : String) :
    ListObjects c pfx =
      (Except.ok
        ((c.objects.entries.filter
            (fun e => decide (pfx = "" ∨ HasPrefix e.1 pfx = true))).map
          (fun e => ({ Key := e.1, Size := (e.2.length : Int), ContentType := "",
                       LastModified := 0, ETag := "" } : ObjectMeta))), c) := by
  unfold ListObjects
  rw [listObjects_fold]
  rfl

theorem listObjects_keys (c : Client) (pfx : String) :
    ((c.objects.entries.filter
        (fun e => decide (pfx = "" ∨ HasPrefix e.1 pfx = true))).map
      (fun e => ({ Key := e.1, Size := (e.2.length : Int), ContentType := "",
                   LastModified := 0, ETag := "" } : ObjectMeta))).map ObjectMeta.Key =
    c.objects.keys.filter (fun k => decide (pfx = "" ∨ HasPrefix k pfx = true)) := by
  rw [List.map_map, AList.keys, List.keys, List.filter_map]
  rfl

/-- C4: `ListObjects(p)` succeeds, leaves the store as it is, and returns exactly one entry
for each stored key that starts with `p` (each stored key when `p` is empty), no entry for
any other key, each entry having as `Size` the length of the bytes stored under its key;
and after the three puts of the list test, `ListObjects("prefix/")` has exactly the two
entries `prefix/a.txt` and `prefix/b.txt`. -/
theorem listObjects_exact :
    (∀ (c : Client) (pfx : String), ∃ l : List ObjectMeta,
      ListObjects c pfx = (Except.ok l, c) ∧
      (∀ k : String, (l.map ObjectMeta.Key).count k =
        if k ∈ c.objects.keys ∧ (pfx = "" ∨ pfx.data <+: k.data) then 1 else 0) ∧
      (∀ e : ObjectMeta, e ∈ l →
        ∃ d : List Byte, c.objects.lookup e.Key = some d ∧ e.Size = (d.length : Int))) ∧
    (∃ l : List ObjectMeta,
      ListObjects listTestClient "prefix/" = (Except.ok l, listTestClient) ∧
      l.length = 2 ∧
      (∀ k : String, k ∈ l.map ObjectMeta.Key ↔ (k = "prefix/a.txt" ∨ k = "prefix/b.txt"))) := by
  constructor
  · intro c pfx
    refine ⟨_, listObjects_eq c pfx, ?_, ?_⟩
    · intro k
      rw [listObjects_keys]
      have hnd : (c.objects.keys.filter
          (fun k => decide (pfx = "" ∨ HasPrefix k pfx = true))).Nodup :=
        c.objects.keys_nodup.filter _
      by_cases hk : k ∈ c.objects.keys ∧ (pfx = "" ∨ pfx.data <+: k.data)
      · rw [if_pos hk]
        apply List.count_eq_one_of_mem hnd
        rw [List.mem_filter]
        refine ⟨hk.1, decide_eq_true ?_⟩
        unfold HasPrefix
        exact hk.2.imp id List.isPrefixOf_iff_prefix.2
      · rw [if_neg hk]
        apply List.count_eq_zero_of_not_mem
        intro hmem
        rw [List.mem_filter] at hmem
        have hp := of_decide_eq_true hmem.2
        unfold HasPrefix at hp
        exact hk ⟨hmem.1, hp.imp id List.isPrefixOf_iff_prefix.1⟩
    · intro e he
      rw [List.mem_map] at he
      obtain ⟨⟨k, d⟩, hmem, rfl⟩ := he
      rw [List.mem_filter] at hmem
      exact ⟨d, AList.mem_lookup_iff.2 hmem.1, rfl⟩
  · refine ⟨[{ Key := "prefix/b.txt", Size := 1, ContentType := "", LastModified := 0,
               ETag := "" },
             { Key := "prefix/a.txt", Size := 1, ContentType := "", LastModified := 0,
               ETag := "" }], rfl, rfl, ?_⟩
    intro k
    simp only [List.map_cons, List.map_nil, List.mem_cons, List.mem_singleton]
    constructor
    · rintro (h | h | h)
      · exact Or.inr h
      · exact Or.inl h
      · exact absurd h (List.not_mem_nil k)
    · rintro (h | h)
      · exact Or.inr (Or.inl h)
      · exact Or.inl h

/-- Witness for C4: the general part at the store of the list test and the prefix
`prefix/`. -/
theorem listObjects_exact_witness :
    ∃ l : List ObjectMeta,
      ListObjects listTestClient "prefix/" = (Except.ok l, listTestClient) ∧
      (∀ k : String, (l.map ObjectMeta.Key).count k =
        if k ∈ listTestClient.objects.keys ∧
          ("prefix/" = "" ∨ "prefix/".data <+: k.data) then 1 else 0) ∧
      (∀ e : ObjectMeta, e ∈ l →
        ∃ d : List Byte, listTestClient.objects.lookup e.Key = some d ∧
          e.Size = (d.length : Int)) :=
  listObjects_exact.1 listTestClient "prefix/"

/-- C5 (as amended): for every non-empty key `k` that does not begin with a slash, each of
`PutObject`, `GetObject`, `HeadObject` and `DeleteObject` called with `"/" + k` has the
same result and leaves the same store as when called with `k`. -/
theorem slash_key_same_object (c : Client) (k : String) (d : Option Reader) (ct : String)
    (now : Time) (hk : k ≠ "") (hs : ∀ rest : String, k ≠ "/" ++ rest) :
    PutObject c ("/" ++ k) d ct now = PutObject c k d ct now ∧
      GetObject c ("/" ++ k) now = GetObject c k now ∧
      HeadObject c ("/" ++ k) now = HeadObject c k now ∧
      DeleteObject c ("/" ++ k) = DeleteObject c k := by
  have h1 : TrimPrefix ("/" ++ k) "/" = k := trimPrefix_append "/" k
  have h2 : TrimPrefix k "/" = k := trimPrefix_of_not k "/" hs
  have h3 : "/" ++ k ≠ "" := append_ne_empty "/" k (by decide)
  refine ⟨?_, ?_, ?_, ?_⟩
  · unfold PutObject
    rw [if_neg hk, if_neg h3, h1, h2]
  · unfold GetObject
    rw [if_neg hk, if_neg h3, h1, h2]
  · unfold HeadObject
    rw [if_neg hk, if_neg h3, h1, h2]
  · unfold DeleteObject
    rw [if_neg hk, if_neg h3, h1, h2]

/-- Witness for C5: the key `test.txt` and `/test.txt` on the store of the list test. -/
theorem slash_key_same_object_witness :
    PutObject listTestClient ("/" ++ "test.txt") (some (NewReader [104])) "text/plain" 1 =
        PutObject listTestClient "test.txt" (some (NewReader [104])) "text/plain" 1 ∧
      GetObject listTestClient ("/" ++ "test.txt") 1 = GetObject listTestClient "test.txt" 1 ∧
      HeadObject listTestClient ("/" ++ "test.txt") 1 = HeadObject listTestClient "test.txt" 1 ∧
      DeleteObject listTestClient ("/" ++ "test.txt") = DeleteObject listTestClient "test.txt" :=
  slash_key_same_object listTestClient "test.txt" (some (NewReader [104])) "text/plain" 1
    (by decide)
    (by
      intro rest h
      have hd := congrArg String.data h
      simp at hd)

/-- C5 fails as stated: for the non-empty key `/a`, on a store that holds `a`, `GetObject`
finds the object with `/a` and misses it with `"/" + "/a"`, and `PutObject` stores under
`a` with the first and under `/a` with the second. -/
theorem slash_key_same_object_counterexample :
    (GetObject (PutObject testClient "a" (some (NewReader [1])) "text/plain" 0).2 "/a" 0).1 =
        Except.ok (NewReader [1],
          { Key := "a", Size := 1, ContentType := "", LastModified := 0, ETag := "" }) ∧
      (GetObject (PutObject testClient "a" (some (NewReader [1])) "text/plain" 0).2
        ("/" ++ "/a") 0).1 = Except.error ErrObjectNotFound ∧
      (PutObject testClient "/a" (some (NewReader [1])) "text/plain" 0).2.objects.keys = ["a"] ∧
      (PutObject testClient ("/" ++ "/a") (some (NewReader [1])) "text/plain" 0).2.objects.keys
        = ["/a"] := by
  decide

/-- C6: after `PutObject(k, b1)` followed by `PutObject(k, b2)` for a non-empty key `k`, the
second put returns metadata with `Size = len(b2)`, the store holds exactly one object under
the normalized form of `k`, and `GetObject(k)` succeeds with a stream that yields `b2`. -/
theorem put_put_last_write_wins (c : Client) (k : String) (r1 r2 : Reader)
    (b1 b2 : List Byte) (ct1 ct2 : String) (t1 t2 t3 : Time) (hk : k ≠ "")
    (hr1 : ReadAll r1 = (b1, none)) (hr2 : ReadAll r2 = (b2, none)) :
    ∃ (m : ObjectMeta) (stream : Reader) (g : ObjectMeta),
      (PutObject (PutObject c k (some r1) ct1 t1).2 k (some r2) ct2 t2).1 = Except.ok m ∧
      m.Size = (b2.length : Int) ∧
      (PutObject (PutObject c k (some r1) ct1 t1).2 k (some r2) ct2 t2).2.objects.keys.count
        (TrimPrefix k "/") = 1 ∧
      (GetObject (PutObject (PutObject c k (some r1) ct1 t1).2 k (some r2) ct2 t2).2 k t3).1 =
        Except.ok (stream, g) ∧
      ReadAll stream = (b2, none) := by
  have e1 : (PutObject c k (some r1) ct1 t1).2 =
      { c with objects := c.objects.insert (TrimPrefix k "/") b1 } := by
    rw [putObject_ok c k r1 b1 ct1 t1 hk hr1]
  rw [e1, putObject_ok _ k r2 b2 ct2 t2 hk hr2]
  dsimp only
  have hl : ((c.objects.insert (TrimPrefix k "/") b1).insert (TrimPrefix k "/") b2).lookup
      (TrimPrefix k "/") = some b2 := AList.lookup_insert _
  rw [getObject_found _ k t3 b2 hk hl]
  refine ⟨_, _, _, rfl, rfl, ?_, rfl, readAll_newReader b2⟩
  apply List.count_eq_one_of_mem (AList.keys_nodup _)
  rw [← AList.mem_keys, ← AList.lookup_isSome]
  simp only [hl, Option.isSome_some]

/-- Witness for C6: `test.txt` put twice into the store of the list test. -/
theorem put_put_last_write_wins_witness :
    ∃ (m : ObjectMeta) (stream : Reader) (g : ObjectMeta),
      (PutObject (PutObject listTestClient "test.txt" (some (NewReader [1, 2])) "a" 1).2
        "test.txt" (some (NewReader [3])) "b" 2).1 = Except.ok m ∧
      m.Size = (([3] : List Byte).length : Int) ∧
      (PutObject (PutObject listTestClient "test.txt" (some (NewReader [1, 2])) "a" 1).2
        "test.txt" (some (NewReader [3])) "b" 2).2.objects.keys.count
        (TrimPrefix "test.txt" "/") = 1 ∧
      (GetObject (PutObject (PutObject listTestClient "test.txt" (some (NewReader [1, 2]))
        "a" 1).2 "test.txt" (some (NewReader [3])) "b" 2).2 "test.txt" 3).1 =
        Except.ok (stream, g) ∧
      ReadAll stream = ([3], none) :=
  put_put_last_write_wins listTestClient "test.txt" (NewReader [1, 2]) (NewReader [3])
    [1, 2] [3] "a" "b" 1 2 3 (by decide) (by decide) (by decide)

/-- C7 (as amended): `PutObject` fails with the empty-key error exactly for the empty key,
fails with the missing-data error for a non-empty key and a nil stream, fails with the
wrapped read error for a non-empty key and a stream that errors; and whenever it fails
the store is left unchanged. -/
theorem putObject_failures (c : Client) (k : String) (d : Option Reader) (ct : String)
    (now : Time) :
    ((PutObject c k d ct now).1 = Except.error (Error.new "key cannot be empty") ↔ k = "") ∧
      (k ≠ "" → d = none →
        (PutObject c k d ct now).1 = Except.error (Error.new "data cannot be nil")) ∧
      (∀ (r : Reader) (e : Error), k ≠ "" → d = some r → (ReadAll r).2 = some e →
        (PutObject c k d ct now).1 = Except.error (Error.wrap "failed to read data" e)) ∧
      (∀ e : Error, (PutObject c k d ct now).1 = Except.error e →
        (PutObject c k d ct now).2 = c) := by
  by_cases hk : k = ""
  · subst hk
    refine ⟨⟨fun _ => rfl, fun _ => rfl⟩, fun h => absurd rfl h, fun _ _ h => absurd rfl h,
      fun _ _ => rfl⟩
  · cases d with
    | none =>
      have hp : PutObject c k none ct now =
          (Except.error (Error.new "data cannot be nil"), c) := by
        simp [PutObject, hk]
      rw [hp]
      refine ⟨⟨fun h => ?_, fun h => absurd h hk⟩, fun _ _ => rfl, fun r e _ h => ?_,
        fun _ _ => rfl⟩
      · exact absurd h (by simp)
      · exact absurd h (by simp)
    | some r =>
      cases hr : ReadAll r with
      | mk b oe =>
        cases oe with
        | none =>
          rw [putObject_ok c k r b ct now hk hr]
          refine ⟨⟨fun h => ?_, fun h => absurd h hk⟩, fun _ h => ?_, fun r2 e _ h he => ?_,
            fun e h => ?_⟩
          · exact absurd h (by simp)
          · exact absurd h (by simp)
          · simp only [Option.some.injEq] at h
            subst h
            rw [hr] at he
            exact absurd he (by simp)
          · exact absurd h (by simp)
        | some e0 =>
          have hp : PutObject c k (some r) ct now =
              (Except.error (Error.wrap "failed to read data" e0), c) := by
            simp [PutObject, hk, hr]
          rw [hp]
          refine ⟨⟨fun h => ?_, fun h => absurd h hk⟩, fun _ h => ?_, fun r2 e _ h he => ?_,
            fun _ _ => rfl⟩
          · exact absurd h (by simp)
          · exact absurd h (by simp)
          · simp only [Option.some.injEq] at h
            subst h
            rw [hr] at he
            simp only [Option.some.injEq] at he
            rw [he]

/-- Witness for C7: on the store of the list test, the empty key, a nil stream, and a stream
that delivers two bytes and then fails. -/
theorem putObject_failures_witness :
    (PutObject listTestClient "" (some (NewReader [1])) "text/plain" 0).1 =
        Except.error (Error.new "key cannot be empty") ∧
      (PutObject listTestClient "test.txt" none "text/plain" 0).1 =
        Except.error (Error.new "data cannot be nil") ∧
      (PutObject listTestClient "test.txt"
        (some { chunks := [[1, 2]], err := some (Error.new "connection reset") })
        "text/plain" 0).1 =
        Except.error (Error.wrap "failed to read data" (Error.new "connection reset")) ∧
      (PutObject listTestClient "test.txt"
        (some { chunks := [[1, 2]], err := some (Error.new "connection reset") })
        "text/plain" 0).2 = listTestClient :=
  ⟨(putObject_failures listTestClient "" (some (NewReader [1])) "text/plain" 0).1.2 rfl,
   (putObject_failures listTestClient "test.txt" none "text/plain" 0).2.1 (by decide) rfl,
   (putObject_failures listTestClient "test.txt"
      (some { chunks := [[1, 2]], err := some (Error.new "connection reset") })
      "text/plain" 0).2.2.1 _ _ (by decide) rfl rfl,
   (putObject_failures listTestClient "test.txt"
      (some { chunks := [[1, 2]], err := some (Error.new "connection reset") })
      "text/plain" 0).2.2.2 (Error.wrap "failed to read data" (Error.new "connection reset"))
      rfl⟩

/-- C7 fails as stated: the blank key `" "` is accepted and stored, and with the empty key
a nil stream gives the empty-key error, not the missing-data error. -/
theorem putObject_failures_counterexample :
    (PutObject testClient " " (some (NewReader [1])) "text/plain" 0).1 =
        Except.ok { Key := " ", Size := 1, ContentType := "text/plain", LastModified := 0,
                    ETag := etagOf 1 } ∧
      (PutObject testClient " " (some (NewReader [1])) "text/plain" 0).2.objects.lookup " " =
        some [1] ∧
      (PutObject testClient "" none "text/plain" 0).1 =
        Except.error (Error.new "key cannot be empty") ∧
      Error.new "key cannot be empty" ≠ Error.new "data cannot be nil" := by
  decide

/-- C8: for a non-empty key `k` and a stream that delivers `b`, `PutObject(k, b, ct)` returns
metadata with `Key` equal to `k` with one leading slash removed, `Size = len(b)` and
`ContentType = ct`; `HeadObject(k)` afterwards succeeds with the same `Key` and
`Size = len(b)`, and `GetObject(k)` reports that `Key` and `Size` too. -/
theorem put_then_head (c : Client) (k : String) (r : Reader) (b : List Byte) (ct : String)
    (t1 t2 t3 : Time) (hk : k ≠ "") (hr : ReadAll r = (b, none)) :
    ∃ (m h g : ObjectMeta) (stream : Reader),
      (PutObject c k (some r) ct t1).1 = Except.ok m ∧
      m.Key = TrimPrefix k "/" ∧
      (∀ rest : String, k = "/" ++ rest → m.Key = rest) ∧
      ((∀ rest : String, k ≠ "/" ++ rest) → m.Key = k) ∧
      m.Size = (b.length : Int) ∧ m.ContentType = ct ∧
      (HeadObject (PutObject c k (some r) ct t1).2 k t2).1 = Except.ok h ∧
      h.Key = m.Key ∧ h.Size = (b.length : Int) ∧
      (GetObject (PutObject c k (some r) ct t1).2 k t3).1 = Except.ok (stream, g) ∧
      g.Key = h.Key ∧ g.Size = h.Size := by
  have e1 : (PutObject c k (some r) ct t1).2 =
      { c with objects := c.objects.insert (TrimPrefix k "/") b } := by
    rw [putObject_ok c k r b ct t1 hk hr]
  have hl : ({ c with objects := c.objects.insert (TrimPrefix k "/") b } : Client).objects.lookup
      (TrimPrefix k "/") = some b := AList.lookup_insert _
  rw [e1, putObject_ok c k r b ct t1 hk hr, headObject_found _ k t2 b hk hl,
    getObject_found _ k t3 b hk hl]
  refine ⟨_, _, _, _, rfl, rfl, ?_, ?_, rfl, rfl, rfl, rfl, rfl, rfl, rfl, rfl⟩
  · intro rest hrest
    subst hrest
    exact trimPrefix_append "/" rest
  · intro hno
    exact trimPrefix_of_not k "/" hno

/-- Witness for C8: the put of the head test, `head.txt` with the four bytes of `data`. -/
theorem put_then_head_witness :
    ∃ (m h g : ObjectMeta) (stream : Reader),
      (PutObject testClient "head.txt" (some (NewReader [100, 97, 116, 97])) "text/plain" 1).1
        = Except.ok m ∧
      m.Key = TrimPrefix "head.txt" "/" ∧
      (∀ rest : String, "head.txt" = "/" ++ rest → m.Key = rest) ∧
      ((∀ rest : String, "head.txt" ≠ "/" ++ rest) → m.Key = "head.txt") ∧
      m.Size = (([100, 97, 116, 97] : List Byte).length : Int) ∧ m.ContentType = "text/plain" ∧
      (HeadObject (PutObject testClient "head.txt" (some (NewReader [100, 97, 116, 97]))
        "text/plain" 1).2 "head.txt" 2).1 = Except.ok h ∧
      h.Key = m.Key ∧ h.Size = (([100, 97, 116, 97] : List Byte).length : Int) ∧
      (GetObject (PutObject testClient "head.txt" (some (NewReader [100, 97, 116, 97]))
        "text/plain" 1).2 "head.txt" 3).1 = Except.ok (stream, g) ∧
      g.Key = h.Key ∧ g.Size = h.Size :=
  put_then_head testClient "head.txt" (NewReader [100, 97, 116, 97]) [100, 97, 116, 97]
    "text/plain" 1 2 3 (by decide) (by decide)

end Storage

/-! ## The locator codec -/

namespace Fileupload

open Go

theorem index_slash_none (l : List Char) (h : '/' ∉ l) : Index l ['/'] = none := by
  induction l with
  | nil => simp [Index]
  | cons ch t ih =>
    have hne : ¬ ('/' = ch) := fun e => h (e ▸ List.mem_cons_self _ _)
    have ht : '/' ∉ t := fun m => h (List.mem_cons_of_mem _ m)
    simp [Index, hne, ih ht]

theorem index_slash_first (xs rest : List Char) (h : '/' ∉ xs) :
    Index (xs ++ '/' :: rest) ['/'] = some xs.length := by
  induction xs with
  | nil => simp [Index]
  | cons ch t ih =>
    have hne : ¬ ('/' = ch) := fun e => h (e ▸ List.mem_cons_self _ _)
    have ht : '/' ∉ t := fun m => h (List.mem_cons_of_mem _ m)
    simp [Index, hne, ih ht]

/-- A list of symbols either has no slash or splits at its first slash. -/
theorem first_slash (l : List Char) :
    '/' ∉ l ∨ ∃ xs rest : List Char, l = xs ++ '/' :: rest ∧ '/' ∉ xs := by
  induction l with
  | nil => exact Or.inl (List.not_mem_nil _)
  | cons ch t ih =>
    by_cases hc : ch = '/'
    · exact Or.inr ⟨[], t, by simp [hc], List.not_mem_nil _⟩
    · rcases ih with ht | ⟨xs, rest, hl, hx⟩
      · left
        intro hm
        rcases List.mem_cons.1 hm with e | e
        · exact hc e.symm
        · exact ht e
      · right
        refine ⟨ch :: xs, rest, by simp [hl], ?_⟩
        intro hm
        rcases List.mem_cons.1 hm with e | e
        · exact hc e.symm
        · exact hx e

theorem splitN_two_none (s : String) (h : '/' ∉ s.data) : SplitN s "/" 2 = [s] := by
  unfold SplitN
  rw [if_neg (by decide), if_neg (by decide)]
  have hd : "/".data = ['/'] := rfl
  rw [hd]
  cases hs : s.data with
  | nil => simp [genSplitLoop, String.ext_iff, hs]
  | cons ch t =>
    have hi : Index (ch :: t) ['/'] = none := index_slash_none _ (hs ▸ h)
    simp [genSplitLoop, hi, String.ext_iff, hs]

theorem splitN_two_first (xs rest : List Char) (h : '/' ∉ xs) :
    SplitN (String.mk (xs ++ '/' :: rest)) "/" 2 = [String.mk xs, String.mk rest] := by
  unfold SplitN
  rw [if_neg (by decide), if_neg (by decide)]
  have hd : "/".data = ['/'] := rfl
  have hn : min 2 ((String.mk (xs ++ '/' :: rest)).data.length + 1) - 1 = 1 := by
    simp only [List.length_append, List.length_cons]
    omega
  rw [hd, hn]
  simp [genSplitLoop, index_slash_first xs rest h]

theorem parseURI_no_scheme (u : String) (h : HasPrefix u "s3://garage/" = false) :
    ParseURI u = ("", "", some (Error.new "invalid URI format")) := by
  simp [ParseURI, h]

theorem parseURI_scheme (rest : String) :
    ParseURI ("s3://garage/" ++ rest) =
      match SplitN rest "/" 2 with
      | [bucket, key] => (bucket, key, none)
      | _ => ("", "", some (Error.new "invalid URI format: missing key")) := by
  unfold ParseURI
  rw [hasPrefix_append, trimPrefix_append]
  rfl

/-- C9: for every bucket without a slash and every key, `ParseURI(GenerateURI(bucket, key))`
succeeds and returns exactly `(bucket, key)`. -/
theorem generate_parse_round_trip (bucket key : String) (hb : '/' ∉ bucket.data) :
    ParseURI (GenerateURI bucket key) = (bucket, key, none) := by
  have hg : GenerateURI bucket key =
      "s3://garage/" ++ String.mk (bucket.data ++ '/' :: key.data) := by
    unfold GenerateURI
    exact String.ext (by simp)
  rw [hg, parseURI_scheme, splitN_two_first bucket.data key.data hb]

/-- Witness for C9: the bucket `test-bucket` and a key with slashes in it. -/
theorem generate_parse_round_trip_witness :
    ParseURI (GenerateURI "test-bucket" "docs/2024/report.pdf") =
      ("test-bucket", "docs/2024/report.pdf", none) :=
  generate_parse_round_trip "test-bucket" "docs/2024/report.pdf" (by decide)

theorem splitOn_no_slash (l : List Char) (h : '/' ∉ l) : l.splitOn '/' = [l] := by
  have hp : ∀ x ∈ l, ¬ ((x == '/') = true) := by
    intro x hxm hbeq
    exact h ((beq_iff_eq.1 hbeq) ▸ hxm)
  exact List.splitOnP_eq_single _ _ hp

theorem splitOn_first_slash (xs rest : List Char) (h : '/' ∉ xs) :
    (xs ++ '/' :: rest).splitOn '/' = xs :: rest.splitOn '/' := by
  have hp : ∀ x ∈ xs, ¬ ((x == '/') = true) := by
    intro x hxm hbeq
    exact h ((beq_iff_eq.1 hbeq) ▸ hxm)
  exact List.splitOnP_first _ _ hp '/' (beq_self_eq_true _) rest

/-- The number of slash-separated segments of a list of symbols is below two exactly when
the list has no slash. -/
theorem segments_lt_two_iff (l : List Char) : (l.splitOn '/').length < 2 ↔ '/' ∉ l := by
  rcases first_slash l with hno | ⟨xs, rest, hl, hx⟩
  · have hs : l.splitOn '/' = [l] := splitOn_no_slash l hno
    simp [hs, hno]
  · have hs : l.splitOn '/' = xs :: rest.splitOn '/' := by
      rw [hl]
      exact splitOn_first_slash xs rest hx
    have hne : rest.splitOn '/' ≠ [] := List.splitOnP_ne_nil _ _
    have hpos : 0 < (rest.splitOn '/').length := List.length_pos.2 hne
    have hmem : '/' ∈ l := by
      rw [hl]
      simp
    constructor
    · intro hlt
      rw [hs, List.length_cons] at hlt
      omega
    · intro hc
      exact absurd hmem hc

/-- C10: `ParseURI` fails, returning empty bucket and key, for every string that does not
begin with `s3://garage/` and for every string whose remainder after that prefix has fewer
than two slash-separated segments; for every other string it succeeds, the remainder being
`bucket + "/" + key` with `bucket` the first segment (it has no slash) and `key` everything
after the first slash. -/
theorem parseURI_cases (u : String) :
    ((∀ rest : String, u ≠ "s3://garage/" ++ rest) →
        ∃ e : Error, ParseURI u = ("", "", some e)) ∧
      (∀ rest : String, u = "s3://garage/" ++ rest → (rest.data.splitOn '/').length < 2 →
        ∃ e : Error, ParseURI u = ("", "", some e)) ∧
      (∀ rest : String, u = "s3://garage/" ++ rest → ¬ (rest.data.splitOn '/').length < 2 →
        ∃ bucket key : String,
          rest = bucket ++ "/" ++ key ∧ '/' ∉ bucket.data ∧
          (rest.data.splitOn '/').head? = some bucket.data ∧
          ParseURI u = (bucket, key, none)) := by
  refine ⟨fun h => ?_, fun rest hu hlt => ?_, fun rest hu hge => ?_⟩
  · exact ⟨_, parseURI_no_scheme u (hasPrefix_eq_false u _ h)⟩
  · have hno : '/' ∉ rest.data := (segments_lt_two_iff rest.data).1 hlt
    rw [hu, parseURI_scheme, splitN_two_none rest hno]
    exact ⟨_, rfl⟩
  · rcases first_slash rest.data with hno | ⟨xs, tl, hl, hx⟩
    · exact absurd ((segments_lt_two_iff rest.data).2 hno) hge
    · have hrest : rest = String.mk (xs ++ '/' :: tl) := String.ext hl
      refine ⟨String.mk xs, String.mk tl, ?_, hx, ?_, ?_⟩
      · rw [hrest]
        exact String.ext (by simp)
      · rw [hl]
        rw [splitOn_first_slash xs tl hx]
        rfl
      · rw [hu, parseURI_scheme, hrest, splitN_two_first xs tl hx]

/-- Witness for C10: a string without the scheme, a locator without a key, and a locator
whose key has a slash in it. -/
theorem parseURI_cases_witness :
    (∃ e : Error, ParseURI "http://garage/b/k" = ("", "", some e)) ∧
      (∃ e : Error, ParseURI "s3://garage/bucket" = ("", "", some e)) ∧
      (∃ bucket key : String,
        "bucket/a/b.pdf" = bucket ++ "/" ++ key ∧ '/' ∉ bucket.data ∧
        (("bucket/a/b.pdf" : String).data.splitOn '/').head? = some bucket.data ∧
        ParseURI "s3://garage/bucket/a/b.pdf" = (bucket, key, none)) :=
  ⟨(parseURI_cases "http://garage/b/k").1
      (by
        intro rest h
        have hd := congrArg String.data h
        simp at hd),
   (parseURI_cases "s3://garage/bucket").2.1 "bucket" (by decide) (by decide),
   (parseURI_cases "s3://garage/bucket/a/b.pdf").2.2 "bucket/a/b.pdf" (by decide)
      (by decide)⟩

end Fileupload

/-! ## The hasher -/

namespace Hasher

open Go

theorem foldl_write_written (chunks : List (List Byte)) (h : Hash) :
    (chunks.foldl Hash.Write h).written = h.written ++ chunks.flatten := by
  induction chunks generalizing h with
  | nil => simp
  | cons p t ih =>
    rw [List.foldl_cons, ih]
    simp only [Hash.Write, List.flatten_cons, List.append_assoc]

theorem sum_length_flatten (chunks : List (List Byte)) :
    (chunks.map List.length).sum = chunks.flatten.length := by
  induction chunks with
  | nil => rfl
  | cons p t ih =>
    rw [List.map_cons, List.sum_cons, List.flatten_cons, List.length_append, ih]

theorem copy_new (r : Reader) :
    Copy sha256New r =
      ({ written := r.chunks.flatten }, ((r.chunks.flatten.length : Nat) : Int), r.err) := by
  unfold Copy
  rw [sum_length_flatten]
  have hw := foldl_write_written r.chunks sha256New
  have hcases : ∀ x : Hash, x.written = r.chunks.flatten → x = { written := r.chunks.flatten } := by
    intro x hx
    cases x
    simp only at hx
    rw [hx]
  have hx : List.foldl Hash.Write sha256New r.chunks = { written := r.chunks.flatten } :=
    hcases _ (by rw [hw]; rfl)
  rw [hx]

theorem sha256FromReader_ok (r : Reader) (b : List Byte) (hr : ReadAll r = (b, none))
    (hb : b ≠ []) :
    SHA256FromReader (some r) =
      Except.ok { Hash := EncodeToString (Sum256 b), Size := (b.length : Int),
                  Algorithm := "sha256" } := by
  unfold ReadAll at hr
  simp only [Prod.mk.injEq] at hr
  obtain ⟨hfl, herr⟩ := hr
  have hlen : ((b.length : Nat) : Int) ≠ 0 := by
    intro h0
    exact hb (List.length_eq_zero.1 (Int.ofNat_eq_zero.1 h0))
  simp only [SHA256FromReader, copy_new, hfl, herr, hlen, if_false, Hash.Sum,
    List.nil_append]

theorem sha256FromReader_read_error (r : Reader) (e : Error) (hr : r.err = some e) :
    SHA256FromReader (some r) = Except.error (Error.wrap "failed to read content" e) := by
  simp only [SHA256FromReader, copy_new, hr]

theorem sha256FromReader_empty (r : Reader) (hr : ReadAll r = ([], none)) :
    SHA256FromReader (some r) = Except.error ErrEmptyContent := by
  unfold ReadAll at hr
  simp only [Prod.mk.injEq] at hr
  obtain ⟨hfl, herr⟩ := hr
  simp only [SHA256FromReader, copy_new, hfl, herr]
  rfl

/-- The computed round constants are sixty-four words, from `0x428a2f98` to `0xc67178f2`, as
in the table of `crypto/sha256`. -/
theorem sha256K_ends :
    sha256K.length = 64 ∧ sha256K.head? = some 0x428a2f98 ∧
      sha256K.getLast? = some 0xc67178f2 := by
  set_option maxRecDepth 100000 in decide

theorem sum256_length (data : List Byte) : (Sum256 data).length = 32 := by
  simp [Sum256, wordBytes]

theorem hexDigit_mem (n : Nat) (h : n < 16) : hexDigit n ∈ "0123456789abcdef".data := by
  interval_cases n <;> decide

theorem encodeToString_length (src : List Byte) :
    (EncodeToString src).length = 2 * src.length := by
  unfold EncodeToString
  show (src.flatMap _).length = _
  induction src with
  | nil => rfl
  | cons b t ih =>
    rw [List.flatMap_cons, List.length_append, ih]
    simp only [List.length_cons, List.length_nil]
    omega

theorem encodeToString_hex (src : List Byte) (ch : Char) (h : ch ∈ (EncodeToString src).data) :
    ch ∈ "0123456789abcdef".data := by
  unfold EncodeToString at h
  simp only [List.mem_flatMap, List.mem_cons, List.mem_singleton] at h
  obtain ⟨b, _, hc⟩ := h
  have h1 : b.val / 16 < 16 := by omega
  have h2 : b.val % 16 < 16 := Nat.mod_lt _ (by decide)
  rcases hc with hc | hc | hc
  · rw [hc]
    exact hexDigit_mem _ h1
  · rw [hc]
    exact hexDigit_mem _ h2
  · exact absurd hc (List.not_mem_nil _)

/-- C11: for every reader that delivers a non-empty byte sequence `b` without error,
`SHA256FromReader` succeeds with `Hash` the hex encoding of the SHA-256 digest of `b`, which
has exactly 64 characters, all of them in `0123456789abcdef`, with `Size = len(b)` and
`Algorithm = "sha256"`; for `hello world` the hash is `b94d27b9...cde9` and the size 11. -/
theorem sha256FromReader_digest :
    (∀ (r : Reader) (b : List Byte), ReadAll r = (b, none) → b ≠ [] →
      SHA256FromReader (some r) =
        Except.ok { Hash := EncodeToString (Sum256 b), Size := (b.length : Int),
                    Algorithm := "sha256" } ∧
      (EncodeToString (Sum256 b)).length = 64 ∧
      ∀ ch : Char, ch ∈ (EncodeToString (Sum256 b)).data → ch ∈ "0123456789abcdef".data) ∧
    SHA256FromReader (some (NewReader helloWorld)) =
      Except.ok
        { Hash := "b94d27b9934d3e08a52e52d7da7dabfac484efe37a5380ee9088f7ace2efcde9",
          Size := 11, Algorithm := "sha256" } := by
  refine ⟨fun r b hr hb => ⟨sha256FromReader_ok r b hr hb, ?_, encodeToString_hex _⟩, ?_⟩
  · rw [encodeToString_length, sum256_length]
  · set_option maxRecDepth 100000 in decide

/-- Witness for C11: a reader that delivers `hello world` in three chunks, one of them
empty. -/
theorem sha256FromReader_digest_witness :
    SHA256FromReader
        (some { chunks := [[104, 101], [], [108, 108, 111, 32, 119, 111, 114, 108, 100]],
                err := none }) =
        Except.ok { Hash := EncodeToString (Sum256 helloWorld),
                    Size := (helloWorld.length : Int), Algorithm := "sha256" } ∧
      (EncodeToString (Sum256 helloWorld)).length = 64 ∧
      ∀ ch : Char, ch ∈ (EncodeToString (Sum256 helloWorld)).data →
        ch ∈ "0123456789abcdef".data :=
  sha256FromReader_digest.1
    { chunks := [[104, 101], [], [108, 108, 111, 32, 119, 111, 114, 108, 100]], err := none }
    helloWorld (by decide) (by decide)

/-- C12: `SHA256FromReader` fails with `ErrNilReader` for a nil reader, with an error that
wraps the read error when the stream fails, and with `ErrEmptyContent` when the stream ends
without error after zero bytes; `SHA256FromBytes` fails with `ErrEmptyContent` exactly when
its input is empty; in every other case the two functions succeed. -/
theorem sha256_failures :
    SHA256FromReader none = Except.error ErrNilReader ∧
      (∀ (r : Reader) (e : Error), r.err = some e →
        SHA256FromReader (some r) = Except.error (Error.wrap "failed to read content" e) ∧
        Error.Is (Error.wrap "failed to read content" e) e = true) ∧
      (∀ r : Reader, ReadAll r = ([], none) →
        SHA256FromReader (some r) = Except.error ErrEmptyContent) ∧
      (∀ (r : Reader) (b : List Byte), ReadAll r = (b, none) → b ≠ [] →
        ∃ res : Result, SHA256FromReader (some r) = Except.ok res) ∧
      (∀ data : List Byte,
        (SHA256FromBytes data = Except.error ErrEmptyContent ↔ data = []) ∧
        ((∃ e : Error, SHA256FromBytes data = Except.error e) ↔ data = [])) := by
  refine ⟨rfl, fun r e hr => ⟨sha256FromReader_read_error r e hr, ?_⟩,
    fun r hr => sha256FromReader_empty r hr,
    fun r b hr hb => ⟨_, sha256FromReader_ok r b hr hb⟩, fun data => ?_⟩
  · cases e <;> simp [Error.Is]
  · cases data with
    | nil => exact ⟨⟨fun _ => rfl, fun _ => rfl⟩, ⟨fun _ => rfl, fun _ => ⟨_, rfl⟩⟩⟩
    | cons x t =>
      have hs : SHA256FromBytes (x :: t) =
          Except.ok { Hash := EncodeToString (Sum256 (x :: t)),
                      Size := ((x :: t).length : Int), Algorithm := "sha256" } := by
        simp [SHA256FromBytes]
      rw [hs]
      refine ⟨⟨fun h => ?_, fun h => ?_⟩, ⟨fun h => ?_, fun h => ?_⟩⟩
      · exact absurd h (by simp)
      · exact absurd h (by simp)
      · obtain ⟨e, he⟩ := h
        exact absurd he (by simp)
      · exact absurd h (by simp)

/-- Witness for C12: a stream that fails after two bytes, a stream that ends at once, and
the reader of `hello world`. -/
theorem sha256_failures_witness :
    (SHA256FromReader (some { chunks := [[1, 2]], err := some (Error.new "connection reset") }) =
        Except.error (Error.wrap "failed to read content" (Error.new "connection reset")) ∧
      Error.Is (Error.wrap "failed to read content" (Error.new "connection reset"))
        (Error.new "connection reset") = true) ∧
      SHA256FromReader (some { chunks := [], err := none }) = Except.error ErrEmptyContent ∧
      (∃ res : Result, SHA256FromReader (some (NewReader helloWorld)) = Except.ok res) :=
  ⟨sha256_failures.2.1 { chunks := [[1, 2]], err := some (Error.new "connection reset") }
      (Error.new "connection reset") rfl,
   sha256_failures.2.2.1 { chunks := [], err := none } (by decide),
   sha256_failures.2.2.2.1 (NewReader helloWorld) helloWorld (by decide) (by decide)⟩

/-- C13: for every reader that delivers a non-empty byte sequence `b` and every string `e`,
`Verify(reader, e)` succeeds, and returns true exactly when `e` is equal, symbol for symbol,
to the hex digest `SHA256FromReader` computes for `b`; `Verify` on `b` with the hash of
`SHA256FromBytes(b)` is true; and whenever `SHA256FromReader` fails, `Verify` returns false
and that error. -/
theorem verify_iff :
    (∀ (r : Reader) (b : List Byte) (e : String), ReadAll r = (b, none) → b ≠ [] →
      ∃ res : Result, SHA256FromReader (some r) = Except.ok res ∧
        (Verify (some r) e).2 = none ∧
        ((Verify (some r) e).1 = true ↔ e.data = res.Hash.data)) ∧
      (∀ (r : Reader) (b : List Byte), ReadAll r = (b, none) → b ≠ [] →
        ∃ res : Result, SHA256FromBytes b = Except.ok res ∧
          Verify (some r) res.Hash = (true, none)) ∧
      (∀ (r : Option Reader) (e : String) (err : Error),
        SHA256FromReader r = Except.error err → Verify r e = (false, some err)) := by
  refine ⟨fun r b e hr hb => ?_, fun r b hr hb => ?_, fun r e err h => ?_⟩
  · refine ⟨_, sha256FromReader_ok r b hr hb, ?_, ?_⟩
    · simp only [Verify, sha256FromReader_ok r b hr hb]
    · simp only [Verify, sha256FromReader_ok r b hr hb, decide_eq_true_eq]
      constructor
      · intro h
        rw [← h]
      · intro h
        exact (String.ext h).symm
  · have hlen : b.length ≠ 0 := fun h0 => hb (List.length_eq_zero.1 h0)
    refine ⟨{ Hash := EncodeToString (Sum256 b), Size := (b.length : Int),
              Algorithm := "sha256" }, ?_, ?_⟩
    · simp only [SHA256FromBytes, hlen, if_false]
    · simp only [Verify, sha256FromReader_ok r b hr hb, decide_True]
  · simp only [Verify, h]

/-- Witness for C13: the reader of `hello world`, with the digest of the hasher tests and
with the same digest in upper case. -/
theorem verify_iff_witness :
    (∃ res : Result, SHA256FromReader (some (NewReader helloWorld)) = Except.ok res ∧
        (Verify (some (NewReader helloWorld))
          "b94d27b9934d3e08a52e52d7da7dabfac484efe37a5380ee9088f7ace2efcde9").2 = none ∧
        ((Verify (some (NewReader helloWorld))
          "b94d27b9934d3e08a52e52d7da7dabfac484efe37a5380ee9088f7ace2efcde9").1 = true ↔
          ("b94d27b9934d3e08a52e52d7da7dabfac484efe37a5380ee9088f7ace2efcde9" : String).data =
            res.Hash.data)) ∧
      (∃ res : Result, SHA256FromBytes helloWorld = Except.ok res ∧
        Verify (some (NewReader helloWorld)) res.Hash = (true, none)) ∧
      Verify none "00" = (false, some ErrNilReader) :=
  ⟨verify_iff.1 (NewReader helloWorld) helloWorld
      "b94d27b9934d3e08a52e52d7da7dabfac484efe37a5380ee9088f7ace2efcde9" (by decide)
      (by decide),
   verify_iff.2.1 (NewReader helloWorld) helloWorld (by decide) (by decide),
   verify_iff.2.2 none "00" ErrNilReader rfl⟩

end Hasher

/-! ## The upload handler -/

namespace Fileupload

open Go

theorem serveHTTP_not_post (h : Handler) (r : Request) (now : Time) (hm : r.Method ≠ "POST") :
    h.ServeHTTP r now =
      (h.writeError 405 "METHOD_NOT_ALLOWED" "Only POST method is allowed", []) := by
  simp only [Handler.ServeHTTP, hm, ne_eq, not_false_eq_true, if_true]

theorem serveHTTP_parse_error (h : Handler) (r : Request) (now : Time) (e : Error)
    (hm : r.Method = "POST") (hp : r.parseErr = some e) :
    h.ServeHTTP r now = (h.writeError 400 "PARSE_ERROR" "Failed to parse form", []) := by
  simp only [Handler.ServeHTTP, hm, hp, ne_eq, not_true_eq_false, if_false]

theorem serveHTTP_missing_file (h : Handler) (r : Request) (now : Time) (e : Error)
    (hm : r.Method = "POST") (hp : r.parseErr = none) (hf : r.formFile = Except.error e) :
    h.ServeHTTP r now = (h.writeError 400 "MISSING_FILE" "No file provided", []) := by
  simp only [Handler.ServeHTTP, hm, hp, hf, ne_eq, not_true_eq_false, if_false]

theorem serveHTTP_too_large (h : Handler) (r : Request) (now : Time) (file : Reader)
    (hdr : FileHeader) (hm : r.Method = "POST") (hp : r.parseErr = none)
    (hf : r.formFile = Except.ok (file, hdr)) (hs : hdr.Size > h.maxSize) :
    h.ServeHTTP r now = (h.writeError 413 "FILE_TOO_LARGE" "File exceeds maximum size", []) := by
  simp only [Handler.ServeHTTP, hm, hp, hf, hs, ne_eq, not_true_eq_false, if_false, if_true]

theorem serveHTTP_invalid_mime (h : Handler) (r : Request) (now : Time) (file : Reader)
    (hdr : FileHeader) (hm : r.Method = "POST") (hp : r.parseErr = none)
    (hf : r.formFile = Except.ok (file, hdr)) (hs : hdr.Size ≤ h.maxSize)
    (hv : h.isValidMIME hdr = false) :
    h.ServeHTTP r now = (h.writeError 415 "INVALID_MIME" "Only PDF files are allowed", []) := by
  have hs2 : ¬ hdr.Size > h.maxSize := not_lt.2 hs
  simp only [Handler.ServeHTTP, hm, hp, hf, hs2, hv, ne_eq, not_true_eq_false, if_false,
    Bool.not_false, if_true]

theorem serveHTTP_upload_failed (h : Handler) (r : Request) (now : Time) (file : Reader)
    (hdr : FileHeader) (uri sha : String) (e : Error) (hm : r.Method = "POST")
    (hp : r.parseErr = none) (hf : r.formFile = Except.ok (file, hdr))
    (hs : hdr.Size ≤ h.maxSize) (hv : h.isValidMIME hdr = true)
    (hu : h.uploader.Upload hdr.Filename file hdr.ContentType = (uri, sha, some e)) :
    h.ServeHTTP r now =
      (h.writeError 500 "UPLOAD_ERROR" "Failed to upload file",
       [{ filename := hdr.Filename, data := file, contentType := hdr.ContentType }]) := by
  have hs2 : ¬ hdr.Size > h.maxSize := not_lt.2 hs
  simp only [Handler.ServeHTTP, hm, hp, hf, hs2, hv, hu, ne_eq, not_true_eq_false, if_false,
    Bool.not_true, Bool.false_eq_true]

theorem serveHTTP_upload_ok (h : Handler) (r : Request) (now : Time) (file : Reader)
    (hdr : FileHeader) (uri sha : String) (hm : r.Method = "POST")
    (hp : r.parseErr = none) (hf : r.formFile = Except.ok (file, hdr))
    (hs : hdr.Size ≤ h.maxSize) (hv : h.isValidMIME hdr = true)
    (hu : h.uploader.Upload hdr.Filename file hdr.ContentType = (uri, sha, none)) :
    h.ServeHTTP r now =
      ({ contentType := "application/json", status := 201,
         body := Body.upload
           { URI := uri, SHA256 := sha, FileName := hdr.Filename, Size := hdr.Size,
             UploadedAt := now } },
       [{ filename := hdr.Filename, data := file, contentType := hdr.ContentType }]) := by
  have hs2 : ¬ hdr.Size > h.maxSize := not_lt.2 hs
  simp only [Handler.ServeHTTP, hm, hp, hf, hs2, hv, hu, ne_eq, not_true_eq_false, if_false,
    Bool.not_true, Bool.false_eq_true]

theorem isValidMIME_iff (h : Handler) (hdr : FileHeader) :
    h.isValidMIME hdr = true ↔
      ((∃ allowed : String, allowed ∈ h.allowedMIME ∧ allowed.data <+: hdr.ContentType.data) ∨
        ToLower (Ext hdr.Filename) = ".pdf") := by
  unfold Handler.isValidMIME
  by_cases ha : h.allowedMIME.any (fun allowed => HasPrefix hdr.ContentType allowed) = true
  · simp only [ha, if_true, true_iff]
    left
    obtain ⟨a, hmem, hpre⟩ := List.any_eq_true.1 ha
    exact ⟨a, hmem, List.isPrefixOf_iff_prefix.1 hpre⟩
  · simp only [ha, Bool.false_eq_true, if_false, decide_eq_true_eq]
    constructor
    · intro hx
      exact Or.inr hx
    · rintro (⟨a, hmem, hpre⟩ | hx)
      · exact absurd (List.any_eq_true.2 ⟨a, hmem, List.isPrefixOf_iff_prefix.2 hpre⟩) ha
      · exact hx

/-- C14 (as amended): `ServeHTTP` stops at the first failing check in the order method, form
parse, presence, size, type. A request that is not a POST gets `METHOD_NOT_ALLOWED`; a POST
whose form does not parse gets `PARSE_ERROR`; a POST whose form parses and has no file gets
`MISSING_FILE`; a file whose `Size` is above the ceiling gets `FILE_TOO_LARGE` whatever its
type; a file within the ceiling (a `Size` equal to it included) with an invalid type gets
`INVALID_MIME`; in none of these cases is the uploader called. The ceiling of `NewHandler`
is 10485760. -/
theorem serveHTTP_first_failure (h : Handler) (r : Request) (now : Time) :
    (r.Method ≠ "POST" →
        h.ServeHTTP r now =
          ({ contentType := "application/json", status := 405,
             body := Body.error { Error := "Method Not Allowed", Code := "METHOD_NOT_ALLOWED",
                                  Message := "Only POST method is allowed" } }, [])) ∧
      (∀ e : Error, r.Method = "POST" → r.parseErr = some e →
        h.ServeHTTP r now =
          ({ contentType := "application/json", status := 400,
             body := Body.error { Error := "Bad Request", Code := "PARSE_ERROR",
                                  Message := "Failed to parse form" } }, [])) ∧
      (∀ e : Error, r.Method = "POST" → r.parseErr = none → r.formFile = Except.error e →
        h.ServeHTTP r now =
          ({ contentType := "application/json", status := 400,
             body := Body.error { Error := "Bad Request", Code := "MISSING_FILE",
                                  Message := "No file provided" } }, [])) ∧
      (∀ (file : Reader) (hdr : FileHeader), r.Method = "POST" → r.parseErr = none →
        r.formFile = Except.ok (file, hdr) → hdr.Size > h.maxSize →
        h.ServeHTTP r now =
          ({ contentType := "application/json", status := 413,
             body := Body.error { Error := "Request Entity Too Large", Code := "FILE_TOO_LARGE",
                                  Message := "File exceeds maximum size" } }, [])) ∧
      (∀ (file : Reader) (hdr : FileHeader), r.Method = "POST" → r.parseErr = none →
        r.formFile = Except.ok (file, hdr) → hdr.Size ≤ h.maxSize →
        h.isValidMIME hdr = false →
        h.ServeHTTP r now =
          ({ contentType := "application/json", status := 415,
             body := Body.error { Error := "Unsupported Media Type", Code := "INVALID_MIME",
                                  Message := "Only PDF files are allowed" } }, [])) ∧
      (∀ u : Uploader, (NewHandler u).maxSize = 10485760) := by
  refine ⟨fun hm => ?_, fun e hm hp => ?_, fun e hm hp hf => ?_, fun file hdr hm hp hf hs => ?_,
    fun file hdr hm hp hf hs hv => ?_, fun u => rfl⟩
  · rw [serveHTTP_not_post h r now hm]
    rfl
  · rw [serveHTTP_parse_error h r now e hm hp]
    rfl
  · rw [serveHTTP_missing_file h r now e hm hp hf]
    rfl
  · rw [serveHTTP_too_large h r now file hdr hm hp hf hs]
    rfl
  · rw [serveHTTP_invalid_mime h r now file hdr hm hp hf hs hv]
    rfl

/-- Witness for C14: with the handler of `NewHandler`, a GET with everything else wrong too,
a POST without a file, a text file one byte above the ceiling, and a text file of exactly
the ceiling. -/
theorem serveHTTP_first_failure_witness :
    (NewHandler stubUploader).ServeHTTP
        { Method := "GET", parseErr := some (Error.new "not multipart"),
          formFile := Except.error ErrMissingFile } 0 =
        ({ contentType := "application/json", status := 405,
           body := Body.error { Error := "Method Not Allowed", Code := "METHOD_NOT_ALLOWED",
                                Message := "Only POST method is allowed" } }, []) ∧
      (NewHandler stubUploader).ServeHTTP
        { Method := "POST", parseErr := none, formFile := Except.error ErrMissingFile } 0 =
        ({ contentType := "application/json", status := 400,
           body := Body.error { Error := "Bad Request", Code := "MISSING_FILE",
                                Message := "No file provided" } }, []) ∧
      (NewHandler stubUploader).ServeHTTP
        { Method := "POST", parseErr := none,
          formFile := Except.ok (NewReader [1],
            { Filename := "notes.txt", ContentType := "text/plain", Size := 10485761 }) } 0 =
        ({ contentType := "application/json", status := 413,
           body := Body.error { Error := "Request Entity Too Large", Code := "FILE_TOO_LARGE",
                                Message := "File exceeds maximum size" } }, []) ∧
      (NewHandler stubUploader).ServeHTTP
        { Method := "POST", parseErr := none,
          formFile := Except.ok (NewReader [1],
            { Filename := "notes.txt", ContentType := "text/plain", Size := 10485760 }) } 0 =
        ({ contentType := "application/json", status := 415,
           body := Body.error { Error := "Unsupported Media Type", Code := "INVALID_MIME",
                                Message := "Only PDF files are allowed" } }, []) :=
  ⟨(serveHTTP_first_failure (NewHandler stubUploader)
      { Method := "GET", parseErr := some (Error.new "not multipart"),
        formFile := Except.error ErrMissingFile } 0).1 (by decide),
   (serveHTTP_first_failure (NewHandler stubUploader)
      { Method := "POST", parseErr := none, formFile := Except.error ErrMissingFile }
      0).2.2.1 ErrMissingFile rfl rfl rfl,
   (serveHTTP_first_failure (NewHandler stubUploader)
      { Method := "POST", parseErr := none,
        formFile := Except.ok (NewReader [1],
          { Filename := "notes.txt", ContentType := "text/plain", Size := 10485761 }) } 0).2.2.2.1
      (NewReader [1]) { Filename := "notes.txt", ContentType := "text/plain", Size := 10485761 }
      rfl rfl rfl (by decide),
   (serveHTTP_first_failure (NewHandler stubUploader)
      { Method := "POST", parseErr := none,
        formFile := Except.ok (NewReader [1],
          { Filename := "notes.txt", ContentType := "text/plain", Size := 10485760 }) } 0).2.2.2.2.1
      (NewReader [1]) { Filename := "notes.txt", ContentType := "text/plain", Size := 10485760 }
      rfl rfl rfl (by decide) (by decide)⟩

/-- C14 fails as stated: a POST whose body is not a multipart form has no file part that can
be extracted, and the handler answers it with `PARSE_ERROR`, not `MISSING_FILE`. -/
theorem serveHTTP_first_failure_counterexample :
    (NewHandler stubUploader).ServeHTTP
        { Method := "POST", parseErr := some (Error.sentinel "http.ErrNotMultipart"),
          formFile := Except.error (Error.sentinel "http.ErrNotMultipart") } 0 =
      ({ contentType := "application/json", status := 400,
         body := Body.error { Error := "Bad Request", Code := "PARSE_ERROR",
                              Message := "Failed to parse form" } }, []) := by
  decide

/-- C15 (as amended): a file that has passed the method, parse, presence and size checks
passes the type check exactly when its content-type header begins with a type of the
allow-list (`application/pdf` by default) or the extension of its file name is `.pdf` in any
letter case; the bytes of the stream are not looked at. When it passes, the uploader is
called; when it does not, the answer is `INVALID_MIME` and the uploader is not called. In
particular, with the default allow-list a file with content-type `text/plain` whose name
does not end in `.pdf` is rejected. -/
theorem type_check_header_or_extension (h : Handler) (r : Request) (now : Time)
    (file : Reader) (hdr : FileHeader) (hm : r.Method = "POST") (hp : r.parseErr = none)
    (hf : r.formFile = Except.ok (file, hdr)) (hs : hdr.Size ≤ h.maxSize) :
    (h.isValidMIME hdr = true ↔
        ((∃ allowed : String, allowed ∈ h.allowedMIME ∧
            allowed.data <+: hdr.ContentType.data) ∨
          ToLower (Ext hdr.Filename) = ".pdf")) ∧
      (h.isValidMIME hdr = true →
        (h.ServeHTTP r now).2 =
          [{ filename := hdr.Filename, data := file, contentType := hdr.ContentType }]) ∧
      (h.isValidMIME hdr = false →
        h.ServeHTTP r now =
          ({ contentType := "application/json", status := 415,
             body := Body.error { Error := "Unsupported Media Type", Code := "INVALID_MIME",
                                  Message := "Only PDF files are allowed" } }, [])) ∧
      (h.allowedMIME = ["application/pdf"] → hdr.ContentType = "text/plain" →
        ToLower (Ext hdr.Filename) ≠ ".pdf" →
        h.ServeHTTP r now =
          ({ contentType := "application/json", status := 415,
             body := Body.error { Error := "Unsupported Media Type", Code := "INVALID_MIME",
                                  Message := "Only PDF files are allowed" } }, [])) := by
  have hrej : h.isValidMIME hdr = false →
      h.ServeHTTP r now =
        ({ contentType := "application/json", status := 415,
           body := Body.error { Error := "Unsupported Media Type", Code := "INVALID_MIME",
                                Message := "Only PDF files are allowed" } }, []) := by
    intro hv
    rw [serveHTTP_invalid_mime h r now file hdr hm hp hf hs hv]
    rfl
  refine ⟨isValidMIME_iff h hdr, fun hv => ?_, hrej, fun ha hct hext => ?_⟩
  · rcases hu : h.uploader.Upload hdr.Filename file hdr.ContentType with ⟨uri, sha, oe⟩
    cases oe with
    | none => rw [serveHTTP_upload_ok h r now file hdr uri sha hm hp hf hs hv hu]
    | some e => rw [serveHTTP_upload_failed h r now file hdr uri sha e hm hp hf hs hv hu]
  · apply hrej
    cases hv : h.isValidMIME hdr with
    | false => rfl
    | true =>
      rcases (isValidMIME_iff h hdr).1 hv with ⟨a, hmem, hpre⟩ | hx
      · rw [ha, List.mem_singleton] at hmem
        rw [hmem, hct] at hpre
        exact absurd hpre (by decide)
      · exact absurd hx hext

/-- Witness for C15: with the handler of `NewHandler`, a text file whose name has the
extension `.txt`. -/
theorem type_check_header_or_extension_witness :
    (NewHandler stubUploader).ServeHTTP
        { Method := "POST", parseErr := none,
          formFile := Except.ok (NewReader Hasher.helloWorld,
            { Filename := "notes.txt", ContentType := "text/plain", Size := 11 }) } 0 =
      ({ contentType := "application/json", status := 415,
         body := Body.error { Error := "Unsupported Media Type", Code := "INVALID_MIME",
                              Message := "Only PDF files are allowed" } }, []) :=
  (type_check_header_or_extension (NewHandler stubUploader)
    { Method := "POST", parseErr := none,
      formFile := Except.ok (NewReader Hasher.helloWorld,
        { Filename := "notes.txt", ContentType := "text/plain", Size := 11 }) } 0
    (NewReader Hasher.helloWorld)
    { Filename := "notes.txt", ContentType := "text/plain", Size := 11 }
    rfl rfl rfl (by decide)).2.2.2 rfl rfl (by decide)

/-- C15 fails as stated: the file `report.pdf` with content-type `text/plain` and the bytes
`hello world`, which do not begin with `%PDF-`, is accepted and handed to the uploader;
and the file `report.txt` with content-type `text/plain` whose bytes are `%PDF-` is
rejected. -/
theorem type_check_header_or_extension_counterexample :
    Hasher.helloWorld.take 5 ≠ [37, 80, 68, 70, 45] ∧
      (NewHandler stubUploader).ServeHTTP
        { Method := "POST", parseErr := none,
          formFile := Except.ok (NewReader Hasher.helloWorld,
            { Filename := "report.pdf", ContentType := "text/plain", Size := 11 }) } 0 =
        ({ contentType := "application/json", status := 201,
           body := Body.upload
             { URI := "s3://garage/uploads/report.pdf", SHA256 := "00",
               FileName := "report.pdf", Size := 11, UploadedAt := 0 } },
         [{ filename := "report.pdf", data := NewReader Hasher.helloWorld,
            contentType := "text/plain" }]) ∧
      (NewHandler stubUploader).ServeHTTP
        { Method := "POST", parseErr := none,
          formFile := Except.ok (NewReader [37, 80, 68, 70, 45],
            { Filename := "report.txt", ContentType := "text/plain", Size := 5 }) } 0 =
        ({ contentType := "application/json", status := 415,
           body := Body.error { Error := "Unsupported Media Type", Code := "INVALID_MIME",
                                Message := "Only PDF files are allowed" } }, []) := by
  decide

/-- C17 (as amended): for every request that passes the method, form parse, presence, size
and type checks, the uploader is called exactly once, with the file's name, stream and
content-type; if it returns an error the answer is status 500 with code `UPLOAD_ERROR`;
otherwise the answer is status 201 with the `uri` and `sha256` the uploader returned and
the name and `Size` of the file header. -/
theorem serveHTTP_upload (h : Handler) (r : Request) (now : Time) (file : Reader)
    (hdr : FileHeader) (hm : r.Method = "POST") (hp : r.parseErr = none)
    (hf : r.formFile = Except.ok (file, hdr)) (hs : hdr.Size ≤ h.maxSize)
    (hv : h.isValidMIME hdr = true) :
    (h.ServeHTTP r now).2 =
        [{ filename := hdr.Filename, data := file, contentType := hdr.ContentType }] ∧
      (∀ (uri sha : String) (e : Error),
        h.uploader.Upload hdr.Filename file hdr.ContentType = (uri, sha, some e) →
        (h.ServeHTTP r now).1 =
          { contentType := "application/json", status := 500,
            body := Body.error { Error := "Internal Server Error", Code := "UPLOAD_ERROR",
                                 Message := "Failed to upload file" } }) ∧
      (∀ uri sha : String,
        h.uploader.Upload hdr.Filename file hdr.ContentType = (uri, sha, none) →
        (h.ServeHTTP r now).1 =
          { contentType := "application/json", status := 201,
            body := Body.upload
              { URI := uri, SHA256 := sha, FileName := hdr.Filename, Size := hdr.Size,
                UploadedAt := now } }) := by
  refine ⟨?_, fun uri sha e hu => ?_, fun uri sha hu => ?_⟩
  · rcases hu : h.uploader.Upload hdr.Filename file hdr.ContentType with ⟨uri, sha, oe⟩
    cases oe with
    | none => rw [serveHTTP_upload_ok h r now file hdr uri sha hm hp hf hs hv hu]
    | some e => rw [serveHTTP_upload_failed h r now file hdr uri sha e hm hp hf hs hv hu]
  · rw [serveHTTP_upload_failed h r now file hdr uri sha e hm hp hf hs hv hu]
    rfl
  · rw [serveHTTP_upload_ok h r now file hdr uri sha hm hp hf hs hv hu]

/-- Witness for C17: a PDF of five bytes, with an uploader that answers and with one whose
store fails. -/
theorem serveHTTP_upload_witness :
    ((NewHandler stubUploader).ServeHTTP
        { Method := "POST", parseErr := none,
          formFile := Except.ok (NewReader [37, 80, 68, 70, 45],
            { Filename := "report.pdf", ContentType := "application/pdf", Size := 5 }) } 9).1 =
        { contentType := "application/json", status := 201,
          body := Body.upload
            { URI := "s3://garage/uploads/report.pdf", SHA256 := "00",
              FileName := "report.pdf", Size := 5, UploadedAt := 9 } } ∧
      ((NewHandler failingUploader).ServeHTTP
        { Method := "POST", parseErr := none,
          formFile := Except.ok (NewReader [37, 80, 68, 70, 45],
            { Filename := "report.pdf", ContentType := "application/pdf", Size := 5 }) } 9).1 =
        { contentType := "application/json", status := 500,
          body := Body.error { Error := "Internal Server Error", Code := "UPLOAD_ERROR",
                               Message := "Failed to upload file" } } :=
  ⟨(serveHTTP_upload (NewHandler stubUploader)
      { Method := "POST", parseErr := none,
        formFile := Except.ok (NewReader [37, 80, 68, 70, 45],
          { Filename := "report.pdf", ContentType := "application/pdf", Size := 5 }) } 9
      (NewReader [37, 80, 68, 70, 45])
      { Filename := "report.pdf", ContentType := "application/pdf", Size := 5 }
      rfl rfl rfl (by decide) (by decide)).2.2 "s3://garage/uploads/report.pdf" "00"
      (by decide),
   (serveHTTP_upload (NewHandler failingUploader)
      { Method := "POST", parseErr := none,
        formFile := Except.ok (NewReader [37, 80, 68, 70, 45],
          { Filename := "report.pdf", ContentType := "application/pdf", Size := 5 }) } 9
      (NewReader [37, 80, 68, 70, 45])
      { Filename := "report.pdf", ContentType := "application/pdf", Size := 5 }
      rfl rfl rfl (by decide) (by decide)).2.1 "" "" (Error.new "store unavailable") rfl⟩

/-- C17 fails as stated: a POST with a file part of five bytes, named `report.pdf` and sent
as `application/pdf`, has the method, the presence, the size and the type in order; when its
form does not parse (a malformed query string, say) the handler answers `PARSE_ERROR` and
does not call the uploader. -/
theorem serveHTTP_upload_counterexample :
    (5 : Int) ≤ (NewHandler stubUploader).maxSize ∧
      (NewHandler stubUploader).isValidMIME
        { Filename := "report.pdf", ContentType := "application/pdf", Size := 5 } = true ∧
      (NewHandler stubUploader).ServeHTTP
        { Method := "POST", parseErr := some (Error.new "invalid URL escape"),
          formFile := Except.ok (NewReader [37, 80, 68, 70, 45],
            { Filename := "report.pdf", ContentType := "application/pdf", Size := 5 }) } 0 =
        ({ contentType := "application/json", status := 400,
           body := Body.error { Error := "Bad Request", Code := "PARSE_ERROR",
                                Message := "Failed to parse form" } }, []) := by
  decide

end Fileupload

/-! ## Configuration and construction of the store -/

namespace Storage

open Go

theorem wrap_is_invalidConfig (msg : String) :
    Error.Is (Error.wrap msg ErrInvalidConfig) ErrInvalidConfig = true := by
  simp [Error.Is, ErrInvalidConfig]

/-- C18: `ConfigFromEnv`, as a function of the five `S3_*` values, fails exactly when the
endpoint, the access key, the secret key or the bucket is empty, and then with an error that
wraps `ErrInvalidConfig`; on success it returns the endpoint, the keys and the bucket as
given, and as `Region` the given region, or `us-east-1` when the region is not set. -/
theorem configFromEnv_spec (getenv : String → String) :
    ((∃ e : Error, ConfigFromEnv getenv = Except.error e) ↔
        (getenv "S3_ENDPOINT" = "" ∨ getenv "S3_ACCESS_KEY" = "" ∨
          getenv "S3_SECRET_KEY" = "" ∨ getenv "S3_BUCKET" = "")) ∧
      (∀ e : Error, ConfigFromEnv getenv = Except.error e →
        Error.Is e ErrInvalidConfig = true) ∧
      (∀ cfg : Config, ConfigFromEnv getenv = Except.ok cfg →
        cfg.Endpoint = getenv "S3_ENDPOINT" ∧ cfg.AccessKey = getenv "S3_ACCESS_KEY" ∧
        cfg.SecretKey = getenv "S3_SECRET_KEY" ∧ cfg.Bucket = getenv "S3_BUCKET" ∧
        cfg.Region = if getenv "S3_REGION" = "" then "us-east-1" else getenv "S3_REGION") := by
  by_cases h1 : getenv "S3_ENDPOINT" = ""
  · have hc : ConfigFromEnv getenv =
        Except.error (Error.wrap "S3_ENDPOINT is required" ErrInvalidConfig) := by
      simp [ConfigFromEnv, h1]
    rw [hc]
    refine ⟨⟨fun _ => Or.inl h1, fun _ => ⟨_, rfl⟩⟩, fun e he => ?_, fun cfg hcfg => ?_⟩
    · simp only [Except.error.injEq] at he
      rw [← he]
      exact wrap_is_invalidConfig _
    · exact absurd hcfg (by simp)
  · by_cases h2 : getenv "S3_ACCESS_KEY" = "" ∨ getenv "S3_SECRET_KEY" = ""
    · have hc : ConfigFromEnv getenv =
          Except.error
            (Error.wrap "S3_ACCESS_KEY and S3_SECRET_KEY are required" ErrInvalidConfig) := by
        simp [ConfigFromEnv, h1, h2]
      rw [hc]
      refine ⟨⟨fun _ => ?_, fun _ => ⟨_, rfl⟩⟩, fun e he => ?_, fun cfg hcfg => ?_⟩
      · rcases h2 with h2 | h2
        · exact Or.inr (Or.inl h2)
        · exact Or.inr (Or.inr (Or.inl h2))
      · simp only [Except.error.injEq] at he
        rw [← he]
        exact wrap_is_invalidConfig _
      · exact absurd hcfg (by simp)
    · by_cases h3 : getenv "S3_BUCKET" = ""
      · have hc : ConfigFromEnv getenv =
            Except.error (Error.wrap "S3_BUCKET is required" ErrInvalidConfig) := by
          simp [ConfigFromEnv, h1, h2, h3]
        rw [hc]
        refine ⟨⟨fun _ => Or.inr (Or.inr (Or.inr h3)), fun _ => ⟨_, rfl⟩⟩, fun e he => ?_,
          fun cfg hcfg => ?_⟩
        · simp only [Except.error.injEq] at he
          rw [← he]
          exact wrap_is_invalidConfig _
        · exact absurd hcfg (by simp)
      · have hc : ConfigFromEnv getenv =
            Except.ok
              { Endpoint := getenv "S3_ENDPOINT",
                Region := if getenv "S3_REGION" = "" then "us-east-1" else getenv "S3_REGION",
                AccessKey := getenv "S3_ACCESS_KEY", SecretKey := getenv "S3_SECRET_KEY",
                Bucket := getenv "S3_BUCKET" } := by
          by_cases h4 : getenv "S3_REGION" = ""
          · simp [ConfigFromEnv, h1, h2, h3, h4]
          · simp [ConfigFromEnv, h1, h2, h3, h4]
        rw [hc]
        refine ⟨⟨fun he => ?_, fun hor => ?_⟩, fun e he => ?_, fun cfg hcfg => ?_⟩
        · obtain ⟨e, he⟩ := he
          exact absurd he (by simp)
        · rcases hor with h | h | h | h
          · exact absurd h h1
          · exact absurd (Or.inl h) h2
          · exact absurd (Or.inr h) h2
          · exact absurd h h3
        · exact absurd he (by simp)
        · simp only [Except.ok.injEq] at hcfg
          rw [← hcfg]
          exact ⟨rfl, rfl, rfl, rfl, rfl⟩

/-- Witness for C18: the environment of the tests, the same without the secret key, and the
same without the region. -/
theorem configFromEnv_spec_witness :
    (∃ e : Error, ConfigFromEnv (testEnvWithout "S3_SECRET_KEY") = Except.error e) ∧
      Error.Is (Error.wrap "S3_ACCESS_KEY and S3_SECRET_KEY are required" ErrInvalidConfig)
        ErrInvalidConfig = true ∧
      (({ Endpoint := "http://localhost:3900", Region := "us-east-1", AccessKey := "mykey",
          SecretKey := "mysecret", Bucket := "mybucket" } : Config).Endpoint =
          testEnvWithout "S3_REGION" "S3_ENDPOINT" ∧
        ({ Endpoint := "http://localhost:3900", Region := "us-east-1", AccessKey := "mykey",
           SecretKey := "mysecret", Bucket := "mybucket" } : Config).AccessKey =
          testEnvWithout "S3_REGION" "S3_ACCESS_KEY" ∧
        ({ Endpoint := "http://localhost:3900", Region := "us-east-1", AccessKey := "mykey",
           SecretKey := "mysecret", Bucket := "mybucket" } : Config).SecretKey =
          testEnvWithout "S3_REGION" "S3_SECRET_KEY" ∧
        ({ Endpoint := "http://localhost:3900", Region := "us-east-1", AccessKey := "mykey",
           SecretKey := "mysecret", Bucket := "mybucket" } : Config).Bucket =
          testEnvWithout "S3_REGION" "S3_BUCKET" ∧
        ({ Endpoint := "http://localhost:3900", Region := "us-east-1", AccessKey := "mykey",
           SecretKey := "mysecret", Bucket := "mybucket" } : Config).Region =
          if testEnvWithout "S3_REGION" "S3_REGION" = "" then "us-east-1"
          else testEnvWithout "S3_REGION" "S3_REGION") :=
  ⟨(configFromEnv_spec (testEnvWithout "S3_SECRET_KEY")).1.2
      (Or.inr (Or.inr (Or.inl (by decide)))),
   (configFromEnv_spec (testEnvWithout "S3_SECRET_KEY")).2.1 _ (by decide),
   (configFromEnv_spec (testEnvWithout "S3_REGION")).2.2 _ (by decide)⟩

theorem newClient_ok (cfg : Config) (he : cfg.Endpoint ≠ "") (hb : cfg.Bucket ≠ "") :
    NewClient (some cfg) =
      Except.ok { config := cfg, timeout := 30 * 1000000000, objects := ∅ } := by
  simp [NewClient, he, hb]

theorem emptyStore_getObject (cfg : Config) (t : Nat) (k : String) (now : Time) :
    ∃ e : Error,
      (GetObject { config := cfg, timeout := t, objects := ∅ } k now).1 = Except.error e := by
  by_cases hk : k = ""
  · exact ⟨Error.new "key cannot be empty", by simp [GetObject, hk]⟩
  · exact ⟨ErrObjectNotFound, by rw [getObject_missing _ k now hk (AList.lookup_empty _)]⟩

/-- C19 (as amended): `NewClient` fails exactly when the config is nil, its endpoint is the
empty string or its bucket is the empty string, and then with an error that wraps
`ErrInvalidConfig`; for every other config, blank endpoint or bucket included, it succeeds
and returns a client whose store is empty: `ListObjects("")` returns no entry and every
`GetObject` fails. -/
theorem newClient_spec (cfg : Option Config) :
    ((∃ e : Error, NewClient cfg = Except.error e) ↔
        (cfg = none ∨ ∃ c : Config, cfg = some c ∧ (c.Endpoint = "" ∨ c.Bucket = ""))) ∧
      (∀ e : Error, NewClient cfg = Except.error e → Error.Is e ErrInvalidConfig = true) ∧
      (∀ cl : Client, NewClient cfg = Except.ok cl →
        (ListObjects cl "").1 = Except.ok [] ∧
        ∀ (k : String) (now : Time), ∃ e : Error, (GetObject cl k now).1 = Except.error e) := by
  cases cfg with
  | none =>
    refine ⟨⟨fun _ => Or.inl rfl, fun _ => ⟨_, rfl⟩⟩, fun e he => ?_, fun cl hcl => ?_⟩
    · simp only [NewClient, Except.error.injEq] at he
      rw [← he]
      exact wrap_is_invalidConfig _
    · exact absurd hcl (by simp [NewClient])
  | some c =>
    by_cases he : c.Endpoint = ""
    · have hc : NewClient (some c) =
          Except.error (Error.wrap "endpoint is required" ErrInvalidConfig) := by
        simp [NewClient, he]
      rw [hc]
      refine ⟨⟨fun _ => Or.inr ⟨c, rfl, Or.inl he⟩, fun _ => ⟨_, rfl⟩⟩, fun e hx => ?_,
        fun cl hcl => ?_⟩
      · simp only [Except.error.injEq] at hx
        rw [← hx]
        exact wrap_is_invalidConfig _
      · exact absurd hcl (by simp)
    · by_cases hb : c.Bucket = ""
      · have hc : NewClient (some c) =
            Except.error (Error.wrap "bucket is required" ErrInvalidConfig) := by
          simp [NewClient, he, hb]
        rw [hc]
        refine ⟨⟨fun _ => Or.inr ⟨c, rfl, Or.inr hb⟩, fun _ => ⟨_, rfl⟩⟩, fun e hx => ?_,
          fun cl hcl => ?_⟩
        · simp only [Except.error.injEq] at hx
          rw [← hx]
          exact wrap_is_invalidConfig _
        · exact absurd hcl (by simp)
      · rw [newClient_ok c he hb]
        refine ⟨⟨fun hx => ?_, fun hor => ?_⟩, fun e hx => ?_, fun cl hcl => ?_⟩
        · obtain ⟨e, hx⟩ := hx
          exact absurd hx (by simp)
        · rcases hor with h | ⟨c2, hc2, h⟩
          · exact absurd h (by simp)
          · simp only [Option.some.injEq] at hc2
            subst hc2
            rcases h with h | h
            · exact absurd h he
            · exact absurd h hb
        · exact absurd hx (by simp)
        · simp only [Except.ok.injEq] at hcl
          subst hcl
          exact ⟨rfl, fun k now => emptyStore_getObject c _ k now⟩

/-- Witness for C19: the nil config, the config of the tests with an empty bucket, and the
config of the tests. -/
theorem newClient_spec_witness :
    (∃ e : Error, NewClient none = Except.error e) ∧
      (∃ e : Error,
        NewClient (some { Endpoint := "http://localhost:3900", Region := "us-east-1",
                          AccessKey := "test-key", SecretKey := "test-secret", Bucket := "" }) =
          Except.error e) ∧
      ((ListObjects testClient "").1 = Except.ok [] ∧
        ∀ (k : String) (now : Time),
          ∃ e : Error, (GetObject testClient k now).1 = Except.error e) :=
  ⟨(newClient_spec none).1.2 (Or.inl rfl),
   (newClient_spec (some { Endpoint := "http://localhost:3900", Region := "us-east-1",
                           AccessKey := "test-key", SecretKey := "test-secret",
                           Bucket := "" })).1.2
      (Or.inr ⟨_, rfl, Or.inr rfl⟩),
   (newClient_spec (some testConfig)).2.2 testClient rfl⟩

/-- C19 fails as stated: a config whose endpoint and bucket are blank (one space each) is
accepted. -/
theorem newClient_spec_counterexample :
    NewClient (some { Endpoint := " ", Region := "", AccessKey := "", SecretKey := "",
                      Bucket := " " }) =
      Except.ok
        { config := { Endpoint := " ", Region := "", AccessKey := "", SecretKey := "",
                      Bucket := " " },
          timeout := 30 * 1000000000, objects := ∅ } := by
  rfl

/-- C20 (as amended): `NewClient` does not look at the credentials: for every config with a
non-empty endpoint and a non-empty bucket it succeeds, whatever the access key and the
secret key, the empty ones included. A missing access key or secret key is rejected, with
an error that wraps `ErrInvalidConfig`, by `ConfigFromEnv`. -/
theorem newClient_ignores_credentials :
    (∀ cfg : Config, cfg.Endpoint ≠ "" → cfg.Bucket ≠ "" →
        NewClient (some cfg) =
          Except.ok { config := cfg, timeout := 30 * 1000000000, objects := ∅ }) ∧
      (∀ getenv : String → String,
        (getenv "S3_ACCESS_KEY" = "" ∨ getenv "S3_SECRET_KEY" = "") →
        ∃ e : Error, ConfigFromEnv getenv = Except.error e ∧
          Error.Is e ErrInvalidConfig = true) := by
  refine ⟨newClient_ok, fun getenv hk => ?_⟩
  by_cases h1 : getenv "S3_ENDPOINT" = ""
  · exact ⟨Error.wrap "S3_ENDPOINT is required" ErrInvalidConfig,
      by simp [ConfigFromEnv, h1], wrap_is_invalidConfig _⟩
  · exact ⟨Error.wrap "S3_ACCESS_KEY and S3_SECRET_KEY are required" ErrInvalidConfig,
      by simp [ConfigFromEnv, h1, hk], wrap_is_invalidConfig _⟩

/-- Witness for C20: the config of the client tests, which has no credentials, and the
environment of the tests without the access key. -/
theorem newClient_ignores_credentials_witness :
    NewClient (some testConfig) =
        Except.ok { config := testConfig, timeout := 30 * 1000000000, objects := ∅ } ∧
      (∃ e : Error, ConfigFromEnv (testEnvWithout "S3_ACCESS_KEY") = Except.error e ∧
        Error.Is e ErrInvalidConfig = true) :=
  ⟨newClient_ignores_credentials.1 testConfig (by decide) (by decide),
   newClient_ignores_credentials.2 (testEnvWithout "S3_ACCESS_KEY") (Or.inl (by decide))⟩

/-- C20 fails as stated: the config of the client tests has an empty access key and an empty
secret key, and `NewClient` builds a client from it, on which `PutObject` stores. -/
theorem newClient_ignores_credentials_counterexample :
    testConfig.AccessKey = "" ∧ testConfig.SecretKey = "" ∧
      NewClient (some testConfig) = Except.ok testClient ∧
      (PutObject testClient "test.txt" (some (NewReader [104, 101, 108, 108, 111]))
        "text/plain" 0).1 =
        Except.ok { Key := "test.txt", Size := 5, ContentType := "text/plain",
                    LastModified := 0, ETag := etagOf 5 } := by
  refine ⟨rfl, rfl, rfl, ?_⟩
  decide

end Storage

/-! ## Agreement of the hashers -/

namespace Hasher

open Go

theorem sha256FromBytes_ok (b : List Byte) (hb : b ≠ []) :
    SHA256FromBytes b =
      Except.ok { Hash := EncodeToString (Sum256 b), Size := (b.length : Int),
                  Algorithm := "sha256" } := by
  have hlen : b.length ≠ 0 := fun h0 => hb (List.length_eq_zero.1 h0)
  simp only [SHA256FromBytes, hlen, if_false]

theorem sha256FromReader_eq_bytes (chunks : List (List Byte)) :
    SHA256FromReader (some { chunks := chunks, err := none }) =
      SHA256FromBytes chunks.flatten := by
  by_cases hb : chunks.flatten = []
  · rw [sha256FromReader_empty _ (by rw [ReadAll, hb]), hb]
    rfl
  · rw [sha256FromReader_ok { chunks := chunks, err := none } chunks.flatten rfl hb,
      sha256FromBytes_ok _ hb]

/-- C21: for every byte sequence and every way to deliver it in chunks without error,
`SHA256FromReader` on the chunks returns what `SHA256FromBytes` returns on the sequence (the
same `Hash`, `Size` and `Algorithm`, or `ErrEmptyContent` for both when it is empty);
`SHA256FromString(s)` is `SHA256FromBytes` of the bytes of `s`; and two readers that
deliver the same bytes get the same result. -/
theorem hashers_agree :
    (∀ chunks : List (List Byte),
        SHA256FromReader (some { chunks := chunks, err := none }) =
          SHA256FromBytes chunks.flatten) ∧
      (∀ (r : Reader) (b : List Byte), ReadAll r = (b, none) →
        SHA256FromReader (some r) = SHA256FromBytes b) ∧
      (∀ r : Reader, ReadAll r = ([], none) →
        SHA256FromReader (some r) = Except.error ErrEmptyContent ∧
        SHA256FromBytes [] = Except.error ErrEmptyContent) ∧
      (∀ s : String, SHA256FromString s = SHA256FromBytes (bytesOf s)) ∧
      (∀ (r1 r2 : Reader) (b : List Byte), ReadAll r1 = (b, none) → ReadAll r2 = (b, none) →
        SHA256FromReader (some r1) = SHA256FromReader (some r2)) := by
  have hread : ∀ (r : Reader) (b : List Byte), ReadAll r = (b, none) →
      SHA256FromReader (some r) = SHA256FromBytes b := by
    intro r b hr
    cases r with
    | mk chunks err =>
      simp only [ReadAll, Prod.mk.injEq] at hr
      obtain ⟨hfl, herr⟩ := hr
      rw [herr, ← hfl]
      exact sha256FromReader_eq_bytes chunks
  refine ⟨sha256FromReader_eq_bytes, hread, fun r hr => ⟨sha256FromReader_empty r hr, rfl⟩,
    fun s => rfl, fun r1 r2 b h1 h2 => ?_⟩
  rw [hread r1 b h1, hread r2 b h2]

/-- Witness for C21: `hello world` delivered whole and delivered in three chunks, one of them
empty. -/
theorem hashers_agree_witness :
    SHA256FromReader (some (NewReader helloWorld)) = SHA256FromBytes helloWorld ∧
      SHA256FromReader (some (NewReader helloWorld)) =
        SHA256FromReader
          (some { chunks := [[104, 101], [], [108, 108, 111, 32, 119, 111, 114, 108, 100]],
                  err := none }) :=
  ⟨hashers_agree.2.1 (NewReader helloWorld) helloWorld (by decide),
   hashers_agree.2.2.2.2 (NewReader helloWorld)
     { chunks := [[104, 101], [], [108, 108, 111, 32, 119, 111, 114, 108, 100]], err := none }
     helloWorld (by decide) (by decide)⟩

end Hasher

/-! ## The magic-byte check -/

namespace Fileupload

open Go

theorem bytesOf_pdf : bytesOf "%PDF-" = [37, 80, 68, 70, 45] := by
  decide

theorem validatePDF_at_end (f : File) (hr : f.readErr = none)
    (he : f.content.length ≤ f.offset) :
    ValidatePDF f = (some (Error.wrap "failed to read file header" EOF), f) := by
  simp [ValidatePDF, File.Read, hr, he]

theorem validatePDF_read (f : File) (hr : f.readErr = none) (hs : f.seekErr = none)
    (hlt : f.offset < f.content.length) :
    ValidatePDF f =
      (if (f.content.drop f.offset).take 5 ++
            (List.replicate 5 (0 : Byte)).drop ((f.content.drop f.offset).take 5).length ≠
          bytesOf "%PDF-"
        then some ErrInvalidMIME else none,
       { f with offset := 0 }) := by
  have he : ¬ f.content.length ≤ f.offset := not_le.2 hlt
  simp only [ValidatePDF, File.Read, File.Seek, hr, hs, he, List.length_replicate]
  simp
  split <;> simp_all

/-- The buffer after the read, the bytes read followed by the zeros left of the fresh
buffer, is the marker exactly when the first five bytes of the content are. -/
theorem header_eq_iff (c : List Byte) :
    c.take 5 ++ (List.replicate 5 (0 : Byte)).drop (c.take 5).length = [37, 80, 68, 70, 45] ↔
      c.take 5 = [37, 80, 68, 70, 45] := by
  rcases c with _ | ⟨b0, _ | ⟨b1, _ | ⟨b2, _ | ⟨b3, _ | ⟨b4, rest⟩⟩⟩⟩⟩
  · decide
  · simp [List.replicate]
  · simp [List.replicate]
  · simp [List.replicate]
  · simp [List.replicate]
  · simp [List.replicate]

/-- C22 (as amended): for a readable file positioned at its start, `ValidatePDF` returns nil
exactly when the first five bytes of the content are `%PDF-`; it returns `ErrInvalidMIME`
for every content that is not empty and does not start with that marker (a content of one
to four bytes included); for the empty content it returns the read error, which wraps
`io.EOF`; and whenever it returns nil or `ErrInvalidMIME`, from any starting offset, the
file is at offset 0 afterwards and a full read gives the whole content. -/
theorem validatePDF_spec (f : File) (hr : f.readErr = none) (hs : f.seekErr = none) :
    (f.offset = 0 →
        ((ValidatePDF f).1 = none ↔ f.content.take 5 = bytesOf "%PDF-") ∧
        (f.content ≠ [] → f.content.take 5 ≠ bytesOf "%PDF-" →
          (ValidatePDF f).1 = some ErrInvalidMIME) ∧
        (f.content = [] →
          (ValidatePDF f).1 = some (Error.wrap "failed to read file header" EOF))) ∧
      (((ValidatePDF f).1 = none ∨ (ValidatePDF f).1 = some ErrInvalidMIME) →
        (ValidatePDF f).2.offset = 0 ∧ (ValidatePDF f).2.ReadAll = (f.content, none)) := by
  constructor
  · intro ho
    by_cases hc : f.content = []
    · have he : f.content.length ≤ f.offset := by simp [hc]
      rw [validatePDF_at_end f hr he, hc, bytesOf_pdf]
      refine ⟨⟨fun h => absurd h (by simp), fun h => absurd h (by simp)⟩,
        fun h => absurd rfl h, fun _ => rfl⟩
    · have hlt : f.offset < f.content.length := by
        rw [ho]
        exact List.length_pos.2 hc
      rw [validatePDF_read f hr hs hlt, ho, bytesOf_pdf]
      simp only [List.drop_zero]
      by_cases hm : f.content.take 5 = [37, 80, 68, 70, 45]
      · have hh := (header_eq_iff f.content).2 hm
        simp only [hh, ne_eq, not_true_eq_false, if_false, true_iff]
        exact ⟨hm, fun _ h => absurd hm h, fun h => absurd h hc⟩
      · have hh : ¬ (f.content.take 5 ++
            (List.replicate 5 (0 : Byte)).drop (f.content.take 5).length =
            [37, 80, 68, 70, 45]) := fun h => hm ((header_eq_iff f.content).1 h)
        simp only [hh, ne_eq, not_false_eq_true, if_true]
        exact ⟨⟨fun h => absurd h (by simp), fun h => absurd h hm⟩, fun _ _ => trivial,
          fun h => absurd h hc⟩
  · intro hres
    by_cases he : f.content.length ≤ f.offset
    · rw [validatePDF_at_end f hr he] at hres
      rcases hres with h | h
      · exact absurd h (by simp)
      · exact absurd h (by simp [ErrInvalidMIME])
    · rw [validatePDF_read f hr hs (not_le.1 he)]
      simp [File.ReadAll, hr]

/-- Witness for C22: a file of eight bytes that begins with `%PDF-`, read from its start. -/
theorem validatePDF_spec_witness :
    (((ValidatePDF { content := [37, 80, 68, 70, 45, 49, 46, 52], offset := 0,
                     readErr := none, seekErr := none }).1 = none ↔
        ([37, 80, 68, 70, 45, 49, 46, 52] : List Byte).take 5 = bytesOf "%PDF-") ∧
      (([37, 80, 68, 70, 45, 49, 46, 52] : List Byte) ≠ [] →
        ([37, 80, 68, 70, 45, 49, 46, 52] : List Byte).take 5 ≠ bytesOf "%PDF-" →
        (ValidatePDF { content := [37, 80, 68, 70, 45, 49, 46, 52], offset := 0,
                       readErr := none, seekErr := none }).1 = some ErrInvalidMIME) ∧
      (([37, 80, 68, 70, 45, 49, 46, 52] : List Byte) = [] →
        (ValidatePDF { content := [37, 80, 68, 70, 45, 49, 46, 52], offset := 0,
                       readErr := none, seekErr := none }).1 =
          some (Error.wrap "failed to read file header" EOF))) ∧
      ((ValidatePDF { content := [37, 80, 68, 70, 45, 49, 46, 52], offset := 0,
                      readErr := none, seekErr := none }).2.offset = 0 ∧
        (ValidatePDF { content := [37, 80, 68, 70, 45, 49, 46, 52], offset := 0,
                       readErr := none, seekErr := none }).2.ReadAll =
          ([37, 80, 68, 70, 45, 49, 46, 52], none)) :=
  ⟨(validatePDF_spec { content := [37, 80, 68, 70, 45, 49, 46, 52], offset := 0,
                       readErr := none, seekErr := none } rfl rfl).1 rfl,
   (validatePDF_spec { content := [37, 80, 68, 70, 45, 49, 46, 52], offset := 0,
                       readErr := none, seekErr := none } rfl rfl).2 (Or.inl (by decide))⟩

/-- C22 fails as stated: the empty content does not start with the marker, and `ValidatePDF`
returns for it the read error that wraps `io.EOF`, which is not `ErrInvalidMIME`; a content
of four bytes does get `ErrInvalidMIME`. -/
theorem validatePDF_spec_counterexample :
    ValidatePDF { content := [], offset := 0, readErr := none, seekErr := none } =
        (some (Error.wrap "failed to read file header" EOF),
         { content := [], offset := 0, readErr := none, seekErr := none }) ∧
      Error.wrap "failed to read file header" EOF ≠ ErrInvalidMIME ∧
      ValidatePDF { content := [37, 80, 68, 70], offset := 0, readErr := none,
                    seekErr := none } =
        (some ErrInvalidMIME,
         { content := [37, 80, 68, 70], offset := 0, readErr := none, seekErr := none }) := by
  decide

/-- C23: for every string on which `ParseURI` succeeds with `(bucket, key)`,
`GenerateURI(bucket, key)` is that string again, and the bucket has no slash in it. -/
theorem parse_generate_round_trip (u bucket key : String)
    (h : ParseURI u = (bucket, key, none)) :
    GenerateURI bucket key = u ∧ '/' ∉ bucket.data := by
  cases hp : HasPrefix u "s3://garage/" with
  | false =>
    rw [parseURI_no_scheme u hp] at h
    exact absurd h (by simp)
  | true =>
    obtain ⟨rest, hu⟩ := (hasPrefix_iff u "s3://garage/").1 hp
    rw [hu, parseURI_scheme] at h
    rcases first_slash rest.data with hno | ⟨xs, tl, hl, hx⟩
    · rw [splitN_two_none rest hno] at h
      exact absurd h (by simp)
    · have hrest : rest = String.mk (xs ++ '/' :: tl) := String.ext hl
      rw [hrest, splitN_two_first xs tl hx] at h
      simp only [Prod.mk.injEq, and_true] at h
      obtain ⟨hb, hk⟩ := h
      rw [← hb, ← hk, hu, hrest]
      refine ⟨?_, hx⟩
      unfold GenerateURI
      exact String.ext (by simp)

/-- Witness for C23: a locator whose key has slashes in it. -/
theorem parse_generate_round_trip_witness :
    GenerateURI "test-bucket" "docs/2024/report.pdf" =
        "s3://garage/test-bucket/docs/2024/report.pdf" ∧
      '/' ∉ ("test-bucket" : String).data :=
  parse_generate_round_trip "s3://garage/test-bucket/docs/2024/report.pdf" "test-bucket"
    "docs/2024/report.pdf" (by decide)

end Fileupload

/-! ## The frame of the store operations -/

namespace Storage

open Go

/-- What `PutObject` leaves as the client: the old one, or the old one with the bytes read
stored under the normalized key. -/
theorem putObject_client (c : Client) (k : String) (d : Option Reader) (ct : String)
    (now : Time) :
    (PutObject c k d ct now).2 = c ∨
      ∃ b : List Byte,
        (PutObject c k d ct now).2 = { c with objects := c.objects.insert (TrimPrefix k "/") b } := by
  by_cases hk : k = ""
  · left
    simp [PutObject, hk]
  · cases d with
    | none =>
      left
      simp [PutObject, hk]
    | some r =>
      cases hr : ReadAll r with
      | mk b oe =>
        cases oe with
        | none =>
          right
          exact ⟨b, by rw [putObject_ok c k r b ct now hk hr]⟩
        | some e =>
          left
          simp [PutObject, hk, hr]

/-- What `DeleteObject` leaves as the client: the old one when it fails, the old one without
the normalized key when it succeeds. -/
theorem deleteObject_client (c : Client) (k : String) :
    ((DeleteObject c k).1 ≠ none ∧ (DeleteObject c k).2 = c) ∨
      ((DeleteObject c k).1 = none ∧
        (DeleteObject c k).2 = { c with objects := c.objects.erase (TrimPrefix k "/") }) := by
  by_cases hk : k = ""
  · left
    simp [DeleteObject, hk]
  · cases hl : c.objects.lookup (TrimPrefix k "/") with
    | none =>
      left
      rw [deleteObject_missing c k hk hl]
      exact ⟨by simp, rfl⟩
    | some d =>
      right
      rw [deleteObject_found c k d hk hl]
      exact ⟨rfl, rfl⟩

/-- C24: `PutObject(k, ...)` and `DeleteObject(k)` change at most the object stored under the
normalized form of `k`: every other key is stored afterwards exactly when it was before, with
the same bytes, and the rest of the client is as before; a `DeleteObject` that fails changes
nothing; `GetObject`, `HeadObject` and `ListObjects` never change the client. -/
theorem store_frame (c : Client) (k : String) (d : Option Reader) (ct : String) (now : Time) :
    (∀ k2 : String, k2 ≠ TrimPrefix k "/" →
        (PutObject c k d ct now).2.objects.lookup k2 = c.objects.lookup k2) ∧
      (∀ k2 : String, k2 ≠ TrimPrefix k "/" →
        (DeleteObject c k).2.objects.lookup k2 = c.objects.lookup k2) ∧
      ((PutObject c k d ct now).2.config = c.config ∧
        (PutObject c k d ct now).2.timeout = c.timeout ∧
        (DeleteObject c k).2.config = c.config ∧ (DeleteObject c k).2.timeout = c.timeout) ∧
      ((DeleteObject c k).1 ≠ none → (DeleteObject c k).2 = c) ∧
      (GetObject c k now).2 = c ∧ (HeadObject c k now).2 = c ∧ (ListObjects c k).2 = c := by
  refine ⟨fun k2 hne => ?_, fun k2 hne => ?_, ?_, fun hfail => ?_, ?_, ?_, rfl⟩
  · rcases putObject_client c k d ct now with h | ⟨b, h⟩
    · rw [h]
    · rw [h]
      exact AList.lookup_insert_ne hne
  · rcases deleteObject_client c k with ⟨_, h⟩ | ⟨_, h⟩
    · rw [h]
    · rw [h]
      exact AList.lookup_erase_ne hne
  · rcases putObject_client c k d ct now with h | ⟨b, h⟩ <;>
      rcases deleteObject_client c k with ⟨_, h2⟩ | ⟨_, h2⟩ <;>
      rw [h, h2] <;> exact ⟨rfl, rfl, rfl, rfl⟩
  · rcases deleteObject_client c k with ⟨_, h⟩ | ⟨h0, _⟩
    · exact h
    · exact absurd h0 hfail
  · by_cases hk : k = ""
    · simp [GetObject, hk]
    · cases hl : c.objects.lookup (TrimPrefix k "/") with
      | none => rw [getObject_missing c k now hk hl]
      | some b => rw [getObject_found c k now b hk hl]
  · by_cases hk : k = ""
    · simp [HeadObject, hk]
    · cases hl : c.objects.lookup (TrimPrefix k "/") with
      | none => rw [headObject_missing c k now hk hl]
      | some b => rw [headObject_found c k now b hk hl]

/-- Witness for C24: on the store of the list test, a put and a delete of `/other.txt` leave
`prefix/a.txt` as it is, and a delete of a key that is not stored changes nothing. -/
theorem store_frame_witness :
    (PutObject listTestClient "/other.txt" (some (NewReader [1, 2])) "text/plain" 1).2.objects.lookup
        "prefix/a.txt" = listTestClient.objects.lookup "prefix/a.txt" ∧
      (DeleteObject listTestClient "/other.txt").2.objects.lookup "prefix/a.txt" =
        listTestClient.objects.lookup "prefix/a.txt" ∧
      (DeleteObject listTestClient "nope.txt").2 = listTestClient :=
  ⟨(store_frame listTestClient "/other.txt" (some (NewReader [1, 2])) "text/plain" 1).1
      "prefix/a.txt" (by decide),
   (store_frame listTestClient "/other.txt" (some (NewReader [1, 2])) "text/plain" 1).2.1
      "prefix/a.txt" (by decide),
   (store_frame listTestClient "nope.txt" none "" 0).2.2.2.1 (by decide)⟩

end Storage
